import Mathlib

/-!
Verification development for the image-layout and descriptor-construction
core of a tiled-GPU Vulkan driver (`tu_image.c`).

The definitions below are a shallow embedding of the C source.  Machine
integers are modelled as `Nat` with explicit `% 2 ^ 32` (`u32`) where a
store into a 32-bit descriptor word can truncate.  Code that the driver
treats as an external collaborator (the hardware layout routine
`fdl6_layout`, the format database, the register bit-field macros) is not
part of the embedded file; such definitions carry a doc comment starting
with `Modelled from the spec:` and follow the specification's contract
for the collaborator.
-/

/-- Vulkan formats that appear in the embedded code paths. -/
inductive VkFormat where
  | R8_UNORM
  | R8G8_UNORM
  | R8G8B8A8_UNORM
  | R8G8B8A8_SRGB
  | R32_UINT
  | R32G32B32A32_SFLOAT
  | S8_UINT
  | D16_UNORM
  | D32_SFLOAT
  | D16_UNORM_S8_UINT
  | D24_UNORM_S8_UINT
  | X8_D24_UNORM_PACK32
  | D32_SFLOAT_S8_UINT
  | G8_B8R8_2PLANE_420_UNORM
  | G8_B8_R8_3PLANE_420_UNORM
  | G8B8G8R8_422_UNORM
  | B8G8R8G8_422_UNORM
  | BC1_RGB_UNORM_BLOCK
  | BC1_RGB_SRGB_BLOCK
  | E5B9G9R9_UFLOAT_PACK32
deriving DecidableEq, Repr, Inhabited

/-- Modelled from the spec: the format database's sRGB query
(`vk_format_is_srgb`); the sRGB formats among the embedded ones. -/
def vk_format_is_srgb : VkFormat → Bool
  | .R8G8B8A8_SRGB => true
  | .BC1_RGB_SRGB_BLOCK => true
  | _ => false

/-- Modelled from the spec: the format database's depth/stencil query
(`vk_format_is_depth_or_stencil`). -/
def vk_format_is_depth_or_stencil : VkFormat → Bool
  | .S8_UINT => true
  | .D16_UNORM => true
  | .D32_SFLOAT => true
  | .D16_UNORM_S8_UINT => true
  | .D24_UNORM_S8_UINT => true
  | .X8_D24_UNORM_PACK32 => true
  | .D32_SFLOAT_S8_UINT => true
  | _ => false

/-- Modelled from the spec: the format database's compressed-format query
(`vk_format_is_compressed`). -/
def vk_format_is_compressed : VkFormat → Bool
  | .BC1_RGB_UNORM_BLOCK => true
  | .BC1_RGB_SRGB_BLOCK => true
  | _ => false

/-- Modelled from the spec: whether the format's layout class is
subsampled (the YUYV/UYVY interleaved 4:2:2 formats). -/
def vk_format_is_subsampled : VkFormat → Bool
  | .G8B8G8R8_422_UNORM => true
  | .B8G8R8G8_422_UNORM => true
  | _ => false

/-- Modelled from the spec: the format database's unsigned-integer query. -/
def vk_format_is_uint : VkFormat → Bool
  | .S8_UINT => true
  | .R32_UINT => true
  | _ => false

/-- Modelled from the spec: the format database's signed-integer query
(no signed-integer format is among the embedded ones). -/
def vk_format_is_sint : VkFormat → Bool := fun _ => false

/-- Modelled from the spec: integer-format query (`vk_format_is_int`). -/
def vk_format_is_int (f : VkFormat) : Bool :=
  vk_format_is_uint f || vk_format_is_sint f

/-- Modelled from the spec: the format database's block byte size
(`util_format_get_blocksize` of the translated pipe format). -/
def vk_format_blocksize : VkFormat → Nat
  | .R8_UNORM => 1
  | .R8G8_UNORM => 2
  | .R8G8B8A8_UNORM => 4
  | .R8G8B8A8_SRGB => 4
  | .R32_UINT => 4
  | .R32G32B32A32_SFLOAT => 16
  | .S8_UINT => 1
  | .D16_UNORM => 2
  | .D32_SFLOAT => 4
  | .D16_UNORM_S8_UINT => 4
  | .D24_UNORM_S8_UINT => 4
  | .X8_D24_UNORM_PACK32 => 4
  | .D32_SFLOAT_S8_UINT => 8
  | .G8_B8R8_2PLANE_420_UNORM => 1
  | .G8_B8_R8_3PLANE_420_UNORM => 1
  | .G8B8G8R8_422_UNORM => 4
  | .B8G8R8G8_422_UNORM => 4
  | .BC1_RGB_UNORM_BLOCK => 8
  | .BC1_RGB_SRGB_BLOCK => 8
  | .E5B9G9R9_UFLOAT_PACK32 => 4

/-- Image aspect bit values of the Vulkan API. -/
def VK_IMAGE_ASPECT_COLOR_BIT : Nat := 1
def VK_IMAGE_ASPECT_DEPTH_BIT : Nat := 2
def VK_IMAGE_ASPECT_STENCIL_BIT : Nat := 4
def VK_IMAGE_ASPECT_PLANE_0_BIT : Nat := 16
def VK_IMAGE_ASPECT_PLANE_1_BIT : Nat := 32
def VK_IMAGE_ASPECT_PLANE_2_BIT : Nat := 64

/-- Image usage bit values of the Vulkan API. -/
def VK_IMAGE_USAGE_SAMPLED_BIT : Nat := 4
def VK_IMAGE_USAGE_STORAGE_BIT : Nat := 8
def VK_IMAGE_USAGE_COLOR_ATTACHMENT_BIT : Nat := 16
def VK_IMAGE_USAGE_INPUT_ATTACHMENT_BIT : Nat := 128

/-- Image creation flag bits of the Vulkan API. -/
def VK_IMAGE_CREATE_MUTABLE_FORMAT_BIT : Nat := 8

/-- DRM format modifier codes (`drm_fourcc.h`). -/
def DRM_FORMAT_MOD_LINEAR : Nat := 0
def DRM_FORMAT_MOD_INVALID : Nat := 2 ^ 56 - 1
def DRM_FORMAT_MOD_QCOM_COMPRESSED : Nat := 5 * 2 ^ 56 + 1

/-- a6xx tile modes: `TILE6_LINEAR = 0`, the tiled mode `TILE6_3 = 3`. -/
def TILE6_LINEAR : Nat := 0
def TILE6_3 : Nat := 3

/-- Sentinel for "all remaining levels/layers" in a subresource range. -/
def VK_REMAINING : Nat := 2 ^ 32 - 1

/-- Sentinel for "whole buffer" in a buffer-view range. -/
def VK_WHOLE_SIZE : Nat := 2 ^ 64 - 1

/-- Modelled from the spec: the driver's queue-family count bound
(`TU_MAX_QUEUE_FAMILIES`). -/
def TU_MAX_QUEUE_FAMILIES : Nat := 1

/-- Sentinel queue family index (`VK_QUEUE_FAMILY_EXTERNAL`). -/
def VK_QUEUE_FAMILY_EXTERNAL : Nat := 2 ^ 32 - 2

inductive VkImageType where
  | t1d
  | t2d
  | t3d
deriving DecidableEq, Repr, Inhabited

inductive VkImageViewType where
  | v1d
  | v2d
  | v3d
  | cube
  | v1d_array
  | v2d_array
  | cube_array
deriving DecidableEq, Repr, Inhabited

inductive VkImageTiling where
  | optimal
  | linear
  | drm_format_modifier
deriving DecidableEq, Repr, Inhabited

inductive VkSharingMode where
  | exclusive
  | concurrent
deriving DecidableEq, Repr, Inhabited

structure VkExtent3D where
  width : Nat
  height : Nat
  depth : Nat
deriving DecidableEq, Repr, Inhabited

/-- The image creation parameters consumed by `tu_image_create`
(`VkImageCreateInfo`; `externalMemory` models the presence of a
`VkExternalMemoryImageCreateInfo` in the `pNext` chain). -/
structure VkImageCreateInfo where
  imageType : VkImageType
  format : VkFormat
  extent : VkExtent3D
  mipLevels : Nat
  arrayLayers : Nat
  samples : Nat
  tiling : VkImageTiling
  usage : Nat
  flags : Nat
  sharingMode : VkSharingMode
  queueFamilyIndices : List Nat
  externalMemory : Bool
deriving DecidableEq, Repr

/-- An externally supplied per-plane layout (`VkSubresourceLayout`,
of which only `offset` and `rowPitch` are consumed). -/
structure VkSubresourceLayout where
  offset : Nat
  rowPitch : Nat
deriving DecidableEq, Repr, Inhabited

/-- `tu6_plane_count` — number of planes of a format. -/
def tu6_plane_count : VkFormat → Nat
  | .G8_B8R8_2PLANE_420_UNORM => 2
  | .D32_SFLOAT_S8_UINT => 2
  | .G8_B8_R8_3PLANE_420_UNORM => 3
  | _ => 1

/-- `tu6_plane_format` — the per-plane format of a (multi-planar) format. -/
def tu6_plane_format (format : VkFormat) (plane : Nat) : VkFormat :=
  match format with
  | .G8_B8R8_2PLANE_420_UNORM =>
    if plane ≠ 0 then .R8G8_UNORM else .R8_UNORM
  | .G8_B8_R8_3PLANE_420_UNORM => .R8_UNORM
  | .D32_SFLOAT_S8_UINT =>
    if plane ≠ 0 then .S8_UINT else .D32_SFLOAT
  | _ => format

/-- `tu6_plane_index` — the plane selected by an aspect mask. -/
def tu6_plane_index (format : VkFormat) (aspect_mask : Nat) : Nat :=
  if aspect_mask = VK_IMAGE_ASPECT_PLANE_1_BIT then 1
  else if aspect_mask = VK_IMAGE_ASPECT_PLANE_2_BIT then 2
  else if aspect_mask = VK_IMAGE_ASPECT_STENCIL_BIT then
    (if format = .D32_SFLOAT_S8_UINT then 1 else 0)
  else 0

/-- One mip slice of a plane layout (`struct fdl_slice`; the BWC metadata
slices use the same shape with `size0 = 0`). -/
structure FdlSlice where
  offset : Nat := 0
  pitch : Nat := 0
  size0 : Nat := 0
deriving DecidableEq, Repr, Inhabited

/-- A per-plane layout (`struct fdl_layout`, the fields the embedded code
reads or writes). -/
structure FdlLayout where
  tile_mode : Nat := 0
  ubwc : Bool := false
  width0 : Nat := 0
  height0 : Nat := 0
  depth0 : Nat := 0
  pitchalign : Nat := 6
  slices : List FdlSlice := []
  ubwc_slices : List FdlSlice := []
  layer_size : Nat := 0
  ubwc_layer_size : Nat := 0
  size : Nat := 0
deriving DecidableEq, Repr, Inhabited

/-- Explicit offset/pitch handed to the layout routine
(`struct fdl_explicit_layout`). -/
structure FdlExplicitLayout where
  offset : Nat
  pitch : Nat
deriving DecidableEq, Repr, Inhabited

/-- The arguments `tu_image_create` passes to the hardware layout routine
`fdl6_layout` for one plane (the pipe-format translation is modelled as
the identity on `VkFormat`). -/
structure FdlInput where
  format : VkFormat
  nr_samples : Nat
  width0 : Nat
  height0 : Nat
  depth0 : Nat
  mip_levels : Nat
  array_layers : Nat
  is_3d : Bool
  tile_mode : Nat
  ubwc : Bool
  explicit : Option FdlExplicitLayout
deriving DecidableEq, Repr

/-- Modelled from the spec: the hardware layout routine `fdl6_layout` is a
trusted collaborator; it is kept abstract as a function from its
arguments to an optional plane layout (`none` = failure). -/
def FdlRoutine : Type := FdlInput → Option FdlLayout

/-- Spec contract for the layout routine: it fails only when an explicit
layout was supplied. -/
def FdlTotal (fdl : FdlRoutine) : Prop :=
  ∀ inp : FdlInput, inp.explicit = none → (fdl inp).isSome

/-- Spec contract for the layout routine: without an explicit layout it
produces one (BWC-)slice per mip level and places the first slice at
offset 0. -/
def FdlPlaneZero (fdl : FdlRoutine) : Prop :=
  ∀ inp l, fdl inp = some l → inp.explicit = none →
    l.slices.length = inp.mip_levels ∧
    l.ubwc_slices.length = inp.mip_levels ∧
    (l.slices.getD 0 default).offset = 0

/-- Spec contract for the layout routine: it keeps the caller-chosen tile
mode and BWC flag. -/
def FdlModeFaithful (fdl : FdlRoutine) : Prop :=
  ∀ inp l, fdl inp = some l → l.tile_mode = inp.tile_mode ∧ l.ubwc = inp.ubwc

/-- Spec contract for the layout routine: BWC counterparts (in particular
a non-empty metadata region) are produced only when `bwc` is set. -/
def FdlUbwcMeta (fdl : FdlRoutine) : Prop :=
  ∀ inp l, fdl inp = some l → inp.ubwc = false → l.ubwc_layer_size = 0

/-- Device capability block consumed by the embedded code. -/
structure TuDeviceCaps where
  limited_z24s8 : Bool
  debug_noubwc : Bool
deriving DecidableEq, Repr, Inhabited

/-- The error results the embedded creation paths can surface. -/
inductive TuError where
  | outOfHostMemory
  | invalidDrmFormatModifierPlaneLayout
deriving DecidableEq, Repr

instance {e a : Type _} [DecidableEq e] [DecidableEq a] :
    DecidableEq (Except e a) := fun x y =>
  match x, y with
  | .error u, .error v =>
    if h : u = v then .isTrue (by rw [h])
    else .isFalse (fun he => by cases he; exact h rfl)
  | .ok u, .ok v =>
    if h : u = v then .isTrue (by rw [h])
    else .isFalse (fun he => by cases he; exact h rfl)
  | .error _, .ok _ => .isFalse (fun he => by cases he)
  | .ok _, .error _ => .isFalse (fun he => by cases he)

/-- The image object assembled by `tu_image_create` (`struct tu_image`,
the fields the embedded code touches; `bo_iova`/`bo_offset` model the
bound memory object, `owned_memory = 0` models `VK_NULL_HANDLE`). -/
structure TuImage where
  type : VkImageType
  vk_format : VkFormat
  tiling : VkImageTiling
  usage : Nat
  flags : Nat
  extent : VkExtent3D
  level_count : Nat
  layer_count : Nat
  samples : Nat
  exclusive : Bool
  queue_family_mask : Nat
  shareable : Bool
  layout : List FdlLayout
  total_size : Nat
  bo_iova : Nat := 0
  bo_offset : Nat := 0
  owned_memory : Nat := 0
deriving DecidableEq, Repr

instance : Inhabited TuImage where
  default :=
    { type := .t2d, vk_format := default, tiling := .optimal, usage := 0,
      flags := 0, extent := ⟨1, 1, 1⟩, level_count := 1, layer_count := 1,
      samples := 1, exclusive := true, queue_family_mask := 0,
      shareable := false, layout := [], total_size := 0 }

/-- `ALIGN_POT(x, a)` for a power-of-two `a`: round `x` up to a multiple
of `a`. -/
def ALIGN_POT (x a : Nat) : Nat := (x + a - 1) / a * a

/-- The queue-family mask `tu_image_create` derives from the sharing
parameters. -/
def queueFamilyMask (ci : VkImageCreateInfo) : Nat :=
  if ci.sharingMode = VkSharingMode.concurrent then
    ci.queueFamilyIndices.foldl
      (fun m q =>
        if q = VK_QUEUE_FAMILY_EXTERNAL then m ||| (2 ^ TU_MAX_QUEUE_FAMILIES - 1)
        else m ||| (1 <<< q)) 0
  else 0

/-- One `if` statement of the storage-strategy decision: when `cond`
holds, disable BWC and (when `forceLinear`) also force the linear tile
mode. -/
def policyStep (cond forceLinear : Bool) (t : Nat × Bool) : Nat × Bool :=
  if cond then (if forceLinear then TILE6_LINEAR else t.1, false) else t

/-- The storage-strategy decision of `tu_image_create` (its sequence of
`if` statements deciding `tile_mode` and `ubwc_enabled`), as one pure
function returning `(tile_mode, ubwc_enabled)`; `policyStep` embeds one
source `if` each, in source order. -/
def tu_image_tile_policy (device : TuDeviceCaps) (ci : VkImageCreateInfo)
    (modifier : Nat) : Nat × Bool :=
  let t0 : Nat × Bool := (TILE6_3, !device.debug_noubwc)
  let t1 := policyStep
    (decide (ci.tiling = VkImageTiling.linear ∨ modifier = DRM_FORMAT_MOD_LINEAR ∨
      vk_format_is_subsampled ci.format = true ∨
      (ci.flags &&& VK_IMAGE_CREATE_MUTABLE_FORMAT_BIT ≠ 0 ∧
       vk_format_is_depth_or_stencil ci.format = false))) true t0
  let t2 := policyStep
    (decide (ci.format = VkFormat.G8_B8R8_2PLANE_420_UNORM ∨
      ci.format = VkFormat.G8_B8_R8_3PLANE_420_UNORM)) true t1
  let t3 := policyStep (vk_format_is_compressed ci.format) false t2
  let t4 := policyStep (decide (ci.format = VkFormat.E5B9G9R9_UFLOAT_PACK32)) false t3
  let t5 := policyStep (decide (ci.format = VkFormat.S8_UINT)) false t4
  let t6 := policyStep (decide (ci.extent.depth > 1)) false t5
  let t7 := policyStep (decide (ci.usage &&& VK_IMAGE_USAGE_STORAGE_BIT ≠ 0)) false t6
  let t8 := policyStep
    (decide (device.limited_z24s8 = true ∧ ci.format = VkFormat.D24_UNORM_S8_UINT ∧
      ci.usage &&& (VK_IMAGE_USAGE_SAMPLED_BIT ||| VK_IMAGE_USAGE_INPUT_ATTACHMENT_BIT) ≠ 0))
    false t7
  t8

/-- The per-plane BWC flag inside the plane loop of `tu_image_create`: the
loop body clears `ubwc_enabled` when it reaches the separate-stencil
plane (plane `i > 0` of `D32_SFLOAT_S8_UINT`) and the cleared flag stays
cleared for the remaining planes; since that format has exactly two
planes this equals this per-index function. -/
def planeUbwc (format : VkFormat) (ubwc0 : Bool) (i : Nat) : Bool :=
  if format = VkFormat.D32_SFLOAT_S8_UINT ∧ i > 0 then false else ubwc0

/-- Per-plane mip-0 dimension: halved (rounding up) on the chroma planes
of the 4:2:0 formats. -/
def planeDim (format : VkFormat) (d : Nat) (i : Nat) : Nat :=
  if (format = VkFormat.G8_B8R8_2PLANE_420_UNORM ∨
      format = VkFormat.G8_B8_R8_3PLANE_420_UNORM) ∧ i > 0
  then (d + 1) >>> 1 else d

/-- The arguments `tu_image_create` hands to the layout routine for plane
`i`. -/
def planeInput (ci : VkImageCreateInfo) (tile_mode : Nat) (ubwc0 : Bool)
    (plane_layouts : Option (List VkSubresourceLayout)) (i : Nat) : FdlInput :=
  { format := tu6_plane_format ci.format i
    nr_samples := ci.samples
    width0 := planeDim ci.format ci.extent.width i
    height0 := planeDim ci.format ci.extent.height i
    depth0 := ci.extent.depth
    mip_levels := ci.mipLevels
    array_layers := ci.arrayLayers
    is_3d := ci.imageType = VkImageType.t3d
    tile_mode := tile_mode
    ubwc := planeUbwc ci.format ubwc0 i
    explicit := plane_layouts.map
      (fun pls => { offset := (pls.getD i default).offset,
                    pitch := (pls.getD i default).rowPitch }) }

/-- The offset-shifting loop of `tu_image_create`: add `off` to the
`offset` of the first `n` slices (`n` = the image's mip level count). -/
def shiftSlices (off : Nat) : Nat → List FdlSlice → List FdlSlice
  | _, [] => []
  | 0, ss => ss
  | n + 1, s :: ss => { s with offset := s.offset + off } :: shiftSlices off n ss

/-- The relocation `tu_image_create` applies to plane `i > 0` when no
explicit layout was supplied: shift every slice offset and BWC-slice
offset by `off` and grow the plane's size by `off`. -/
def shiftPlane (off : Nat) (mips : Nat) (l : FdlLayout) : FdlLayout :=
  { l with slices := shiftSlices off mips l.slices,
           ubwc_slices := shiftSlices off mips l.ubwc_slices,
           size := l.size + off }

/-- The plane loop of `tu_image_create`: starting at plane `i` with
`fuel` planes left and accumulated size `total`, produce the plane
layouts and the final accumulated size, or the distinguished
invalid-layout error. -/
def tu_image_planes (fdl : FdlRoutine) (ci : VkImageCreateInfo)
    (tile_mode : Nat) (ubwc0 : Bool)
    (plane_layouts : Option (List VkSubresourceLayout)) :
    Nat → Nat → Nat → Except TuError (List FdlLayout × Nat)
  | _, 0, total => .ok ([], total)
  | i, fuel + 1, total =>
    if plane_layouts.isSome ∧
       (ci.mipLevels ≠ 1 ∨ ci.arrayLayers ≠ 1 ∨ ci.extent.depth ≠ 1) then
      .error .invalidDrmFormatModifierPlaneLayout
    else
      match fdl (planeInput ci tile_mode ubwc0 plane_layouts i) with
      | none => .error .invalidDrmFormatModifierPlaneLayout
      | some raw =>
        let layout :=
          if plane_layouts = none ∧ i > 0 then
            shiftPlane (ALIGN_POT total 4096) ci.mipLevels raw
          else raw
        match tu_image_planes fdl ci tile_mode ubwc0 plane_layouts
            (i + 1) fuel (max total layout.size) with
        | .ok (rest, t) => .ok (layout :: rest, t)
        | .error e => .error e

/-- `tu_image_create`: decide the storage strategy, lay out every plane
(erroring out on an infeasible explicit layout), and assemble the image
object.  Allocation is modelled as always succeeding; `assert`s are
modelled as no-ops (`NDEBUG` semantics). -/
def tu_image_create (device : TuDeviceCaps) (fdl : FdlRoutine)
    (ci : VkImageCreateInfo) (modifier : Nat)
    (plane_layouts : Option (List VkSubresourceLayout)) :
    Except TuError TuImage :=
  let policy := tu_image_tile_policy device ci modifier
  match tu_image_planes fdl ci policy.1 policy.2 plane_layouts 0
      (tu6_plane_count ci.format) 0 with
  | .error e => .error e
  | .ok (planes, total) =>
    .ok { type := ci.imageType
          vk_format := ci.format
          tiling := ci.tiling
          usage := ci.usage
          flags := ci.flags
          extent := ci.extent
          level_count := ci.mipLevels
          layer_count := ci.arrayLayers
          samples := ci.samples
          exclusive := ci.sharingMode = VkSharingMode.exclusive
          queue_family_mask := queueFamilyMask ci
          shareable := ci.externalMemory
          layout := planes
          total_size := total }

/-- The accumulated size after laying out the first `k` planes without
explicit layouts (the value of `image->total_size` when the loop reaches
plane `k`); `0` if the loop errors before that. -/
def tuPlanePrefixTotal (fdl : FdlRoutine) (ci : VkImageCreateInfo)
    (tile_mode : Nat) (ubwc0 : Bool) (k : Nat) : Nat :=
  match tu_image_planes fdl ci tile_mode ubwc0 none 0 k 0 with
  | .ok (_, t) => t
  | .error _ => 0

/-- `tu_GetImageDrmFormatModifierPropertiesEXT` — the modifier reported
for an image. -/
def tu_GetImageDrmFormatModifierProperties (image : TuImage) : Nat :=
  let l0 := image.layout.getD 0 default
  if l0.tile_mode = 0 then DRM_FORMAT_MOD_LINEAR
  else if l0.ubwc_layer_size ≠ 0 then DRM_FORMAT_MOD_QCOM_COMPRESSED
  else DRM_FORMAT_MOD_INVALID

/-- Truncation of a stored value to a 32-bit descriptor word. -/
def u32 (x : Nat) : Nat := x % 2 ^ 32

/-- Modelled from the spec: texture descriptor word-0 bit fields
(tile mode bits 0-1, sRGB bit 2, swizzle selectors bits 4-15, mip level
count bits 16-19 — re-used as the chroma-midpoint bits for multi-planar
views — sample enum bits 20-21, format code bits 22-29, byte swap bits
30-31). -/
def A6XX_TEX_CONST_0_TILE_MODE (v : Nat) : Nat := v % 4
def A6XX_TEX_CONST_0_SRGB : Nat := 4
def A6XX_TEX_CONST_0_SWIZ_X (v : Nat) : Nat := (v % 8) <<< 4
def A6XX_TEX_CONST_0_SWIZ_Y (v : Nat) : Nat := (v % 8) <<< 7
def A6XX_TEX_CONST_0_SWIZ_Z (v : Nat) : Nat := (v % 8) <<< 10
def A6XX_TEX_CONST_0_SWIZ_W (v : Nat) : Nat := (v % 8) <<< 13
def A6XX_TEX_CONST_0_MIPLVLS (v : Nat) : Nat := (v % 16) <<< 16
def A6XX_TEX_CONST_0_CHROMA_MIDPOINT_X : Nat := 1 <<< 16
def A6XX_TEX_CONST_0_CHROMA_MIDPOINT_Y : Nat := 1 <<< 17
def A6XX_TEX_CONST_0_SAMPLES (v : Nat) : Nat := (v % 4) <<< 20
def A6XX_TEX_CONST_0_FMT (v : Nat) : Nat := (v % 256) <<< 22
def A6XX_TEX_CONST_0_SWAP (v : Nat) : Nat := (v % 4) <<< 30

/-- Modelled from the spec: texture descriptor word-1 fields (width bits
0-14, height bits 15-29). -/
def A6XX_TEX_CONST_1_WIDTH (v : Nat) : Nat := v % 2 ^ 15
def A6XX_TEX_CONST_1_HEIGHT (v : Nat) : Nat := (v % 2 ^ 15) <<< 15

/-- Modelled from the spec: texture descriptor word-2 fields (pitch
alignment bits 0-3, pitch bits 7-28, view-type enum bits 29-31, plus two
fixed marker bits for buffer views). -/
def A6XX_TEX_CONST_2_PITCHALIGN (v : Nat) : Nat := v % 16
def A6XX_TEX_CONST_2_UNK4 : Nat := 16
def A6XX_TEX_CONST_2_PITCH (v : Nat) : Nat := (v % 2 ^ 22) <<< 7
def A6XX_TEX_CONST_2_TYPE (v : Nat) : Nat := (v % 8) <<< 29
def A6XX_TEX_CONST_2_UNK31 : Nat := 1 <<< 31

/-- Modelled from the spec: texture descriptor word-3 fields (array pitch
in 4 KiB units bits 0-13, minimum layer size bits 23-26, TILE_ALL bit 27,
FLAG bit 28). -/
def A6XX_TEX_CONST_3_ARRAY_PITCH (v : Nat) : Nat := (v >>> 12) % 2 ^ 14
def A6XX_TEX_CONST_3_MIN_LAYERSZ (v : Nat) : Nat := ((v >>> 12) % 16) <<< 23
def A6XX_TEX_CONST_3_TILE_ALL : Nat := 1 <<< 27
def A6XX_TEX_CONST_3_FLAG : Nat := 1 <<< 28

/-- Modelled from the spec: texture descriptor word-5 holds the base
address's high bits (bits 0-16) or-ed with the depth field (bits
17-29). -/
def A6XX_TEX_CONST_5_DEPTH (v : Nat) : Nat := (v % 2 ^ 13) <<< 17

/-- Modelled from the spec: texture descriptor word-6 plane-pitch field. -/
def A6XX_TEX_CONST_6_PLANE_PITCH (v : Nat) : Nat := (v % 2 ^ 22) <<< 8

/-- Modelled from the spec: texture descriptor words 9 and 10, the BWC
flag-buffer fields. -/
def A6XX_TEX_CONST_9_FLAG_BUFFER_ARRAY_PITCH (v : Nat) : Nat := v % 2 ^ 17
def A6XX_TEX_CONST_10_FLAG_BUFFER_PITCH (v : Nat) : Nat := v % 2 ^ 7
def A6XX_TEX_CONST_10_FLAG_BUFFER_LOGW (v : Nat) : Nat := (v % 16) <<< 8
def A6XX_TEX_CONST_10_FLAG_BUFFER_LOGH (v : Nat) : Nat := (v % 16) <<< 12

/-- Modelled from the spec: storage-image (IBO) descriptor fields, the
image-block-object twin of the texture descriptor fields. -/
def A6XX_IBO_0_FMT (v : Nat) : Nat := (v % 256) <<< 22
def A6XX_IBO_0_TILE_MODE (v : Nat) : Nat := v % 4
def A6XX_IBO_1_WIDTH (v : Nat) : Nat := v % 2 ^ 15
def A6XX_IBO_1_HEIGHT (v : Nat) : Nat := (v % 2 ^ 15) <<< 15
def A6XX_IBO_2_PITCH (v : Nat) : Nat := (v % 2 ^ 22) <<< 7
def A6XX_IBO_2_TYPE (v : Nat) : Nat := (v % 8) <<< 29
def A6XX_IBO_3_ARRAY_PITCH (v : Nat) : Nat := (v >>> 12) % 2 ^ 14
def A6XX_IBO_3_UNK27 : Nat := 1 <<< 27
def A6XX_IBO_3_FLAG : Nat := 1 <<< 28
def A6XX_IBO_5_DEPTH (v : Nat) : Nat := (v % 2 ^ 13) <<< 17
def A6XX_IBO_9_FLAG_BUFFER_ARRAY_PITCH (v : Nat) : Nat := v % 2 ^ 17
def A6XX_IBO_10_FLAG_BUFFER_PITCH (v : Nat) : Nat := v % 2 ^ 7

/-- Hardware component-swizzle selector values (`enum a6xx_tex_swiz`). -/
def A6XX_TEX_X : Nat := 0
def A6XX_TEX_Y : Nat := 1
def A6XX_TEX_Z : Nat := 2
def A6XX_TEX_W : Nat := 3
def A6XX_TEX_ZERO : Nat := 4
def A6XX_TEX_ONE : Nat := 5

/-- Modelled from the spec: the distinguished hardware format codes the
embedded code names (`enum a6xx_format`); the values are arbitrary but
distinct. -/
def FMT6_8_8_8_8_UINT : Nat := 60
def FMT6_Z24_UNORM_S8_UINT : Nat := 160
def FMT6_Z24_UINT_S8_UINT : Nat := 161
def FMT6_Z24_UNORM_S8_UINT_AS_R8G8B8A8 : Nat := 162

/-- Modelled from the spec: the generic hardware format code of a
format (the format database's translation); arbitrary distinct codes. -/
def fmt6_code : VkFormat → Nat
  | .R8_UNORM => 10
  | .R8G8_UNORM => 11
  | .R8G8B8A8_UNORM => 12
  | .R8G8B8A8_SRGB => 13
  | .R32_UINT => 14
  | .R32G32B32A32_SFLOAT => 15
  | .S8_UINT => 16
  | .D16_UNORM => 17
  | .D32_SFLOAT => 18
  | .D16_UNORM_S8_UINT => 19
  | .D24_UNORM_S8_UINT => 20
  | .X8_D24_UNORM_PACK32 => 21
  | .D32_SFLOAT_S8_UINT => 22
  | .G8_B8R8_2PLANE_420_UNORM => 23
  | .G8_B8_R8_3PLANE_420_UNORM => 24
  | .G8B8G8R8_422_UNORM => 25
  | .B8G8R8G8_422_UNORM => 26
  | .BC1_RGB_UNORM_BLOCK => 27
  | .BC1_RGB_SRGB_BLOCK => 28
  | .E5B9G9R9_UFLOAT_PACK32 => 29

/-- Supported-use flags of a native format (`FMT_TEXTURE`, `FMT_COLOR`). -/
def FMT_TEXTURE : Nat := 1
def FMT_COLOR : Nat := 2

/-- A resolved native format (`struct tu_native_format`). -/
structure TuNativeFormat where
  fmt : Nat
  swap : Nat
  tile_mode : Nat
  supported : Nat
deriving DecidableEq, Repr, Inhabited

/-- Modelled from the spec: whether the format supports color output
(render target / storage); block-compressed formats do not. -/
def fmt_supports_color (f : VkFormat) : Bool := !vk_format_is_compressed f

/-- Modelled from the spec: the format database's texture-format
translation (`tu6_format_texture`). -/
def tu6_format_texture (f : VkFormat) (tile_mode : Nat) : TuNativeFormat :=
  { fmt := fmt6_code f, swap := 0, tile_mode := tile_mode,
    supported := FMT_TEXTURE ||| (if fmt_supports_color f then FMT_COLOR else 0) }

/-- Modelled from the spec: the format database's color-format
translation (`tu6_format_color`). -/
def tu6_format_color (f : VkFormat) (tile_mode : Nat) : TuNativeFormat :=
  tu6_format_texture f tile_mode

/-- Modelled from the spec: the sample-count enum (`tu_msaa_samples`),
log2 of the sample count. -/
def tu_msaa_samples (samples : Nat) : Nat := Nat.log2 samples

/-- Modelled from the spec: the hardware view-type enum
(`tu6_tex_type`); storage cubes are treated as 2D arrays. -/
def tu6_tex_type (t : VkImageViewType) (storage : Bool) : Nat :=
  match t with
  | .v1d | .v1d_array => 0
  | .cube | .cube_array => if storage then 1 else 2
  | .v3d => 3
  | _ => 1

/-- A 4-component hardware swizzle (the `unsigned char swiz[4]` array). -/
structure Swiz4 where
  s0 : Nat
  s1 : Nat
  s2 : Nat
  s3 : Nat
deriving DecidableEq, Repr, Inhabited

/-- `VkComponentSwizzle`. -/
inductive VkComponentSwizzle where
  | identity
  | zero
  | one
  | r
  | g
  | b
  | a
deriving DecidableEq, Repr, Inhabited

/-- `VkComponentMapping`. -/
structure VkComponentMapping where
  r : VkComponentSwizzle
  g : VkComponentSwizzle
  b : VkComponentSwizzle
  a : VkComponentSwizzle
deriving DecidableEq, Repr, Inhabited

/-- The identity component mapping (all four components `IDENTITY`). -/
def identityComponentMapping : VkComponentMapping :=
  { r := .identity, g := .identity, b := .identity, a := .identity }

/-- One component of `compose_swizzle`: `orig` is the source value at
this position, the `R…A` selectors index into the source swizzle. -/
def composeComponent (src : Swiz4) (orig : Nat) : VkComponentSwizzle → Nat
  | .identity => orig
  | .r => src.s0
  | .g => src.s1
  | .b => src.s2
  | .a => src.s3
  | .zero => A6XX_TEX_ZERO
  | .one => A6XX_TEX_ONE

/-- `compose_swizzle` — compose a base swizzle with a component mapping
(the C routine copies the source array first, so every component reads
the original values). -/
def compose_swizzle (swiz : Swiz4) (mapping : VkComponentMapping) : Swiz4 :=
  { s0 := composeComponent swiz swiz.s0 mapping.r
    s1 := composeComponent swiz swiz.s1 mapping.g
    s2 := composeComponent swiz swiz.s2 mapping.b
    s3 := composeComponent swiz swiz.s3 mapping.a }

/-- A sampler YCbCr conversion (`struct tu_sampler_ycbcr_conversion`,
the fields the embedded code reads). -/
inductive VkChromaLocation where
  | cosited_even
  | midpoint
deriving DecidableEq, Repr, Inhabited

structure TuSamplerYcbcrConversion where
  components : VkComponentMapping
  chroma_offset_x : VkChromaLocation
  chroma_offset_y : VkChromaLocation
deriving DecidableEq, Repr, Inhabited

/-- `tu6_texswiz` — seed the format-specific base swizzle, compose the
user mapping and (if any) the conversion mapping, and pack the four
selectors into their word-0 fields. -/
def tu6_texswiz (comps : VkComponentMapping)
    (conversion : Option TuSamplerYcbcrConversion) (format : VkFormat)
    (aspect_mask : Nat) (limited_z24s8 : Bool) : Nat :=
  let swiz : Swiz4 := ⟨A6XX_TEX_X, A6XX_TEX_Y, A6XX_TEX_Z, A6XX_TEX_W⟩
  let swiz :=
    if format = VkFormat.G8B8G8R8_422_UNORM ∨
       format = VkFormat.B8G8R8G8_422_UNORM ∨
       format = VkFormat.G8_B8R8_2PLANE_420_UNORM ∨
       format = VkFormat.G8_B8_R8_3PLANE_420_UNORM then
      { swiz with s0 := A6XX_TEX_Z, s1 := A6XX_TEX_X, s2 := A6XX_TEX_Y }
    else if format = VkFormat.BC1_RGB_UNORM_BLOCK ∨
            format = VkFormat.BC1_RGB_SRGB_BLOCK then
      { swiz with s3 := A6XX_TEX_ONE }
    else if format = VkFormat.D24_UNORM_S8_UINT ∧
            aspect_mask = VK_IMAGE_ASPECT_STENCIL_BIT then
      if limited_z24s8 then { swiz with s0 := A6XX_TEX_W, s1 := A6XX_TEX_ZERO }
      else { swiz with s0 := A6XX_TEX_Y, s1 := A6XX_TEX_ZERO }
    else swiz
  let swiz := compose_swizzle swiz comps
  let swiz :=
    match conversion with
    | some conv => compose_swizzle swiz conv.components
    | none => swiz
  A6XX_TEX_CONST_0_SWIZ_X swiz.s0 ||| A6XX_TEX_CONST_0_SWIZ_Y swiz.s1 |||
  A6XX_TEX_CONST_0_SWIZ_Z swiz.s2 ||| A6XX_TEX_CONST_0_SWIZ_W swiz.s3

/-- Modelled from the spec: packing of `A6XX_SP_PS_2D_SRC_INFO`
(color format bits 0-7, tile mode 8-9, swap 10-11, flags bit 12,
sRGB bit 13, samples 14-15, samples-average bit 16, marker bits 20
and 22). -/
def pack_SP_PS_2D_SRC_INFO (color_format tile_mode color_swap : Nat)
    (flags srgb : Bool) (samples : Nat) (samples_average unk20 unk22 : Bool) :
    Nat :=
  (color_format % 256) ||| ((tile_mode % 4) <<< 8) ||| ((color_swap % 4) <<< 10) |||
  (if flags then 1 <<< 12 else 0) ||| (if srgb then 1 <<< 13 else 0) |||
  ((samples % 4) <<< 14) ||| (if samples_average then 1 <<< 16 else 0) |||
  (if unk20 then 1 <<< 20 else 0) ||| (if unk22 then 1 <<< 22 else 0)

/-- Modelled from the spec: packing of `A6XX_SP_PS_2D_SRC_SIZE`
(width bits 0-14, height bits 15-29). -/
def pack_SP_PS_2D_SRC_SIZE (width height : Nat) : Nat :=
  (width % 2 ^ 15) ||| ((height % 2 ^ 15) <<< 15)

/-- Modelled from the spec: packing of the render-target pitch word
(`A6XX_RB_DEPTH_BUFFER_PITCH`, shared encoding with the MRT / 2D pitch). -/
def pack_RB_PITCH (pitch : Nat) : Nat := pitch % 2 ^ 16

/-- Modelled from the spec: packing of the BWC flag-buffer pitch word
(`A6XX_RB_DEPTH_FLAG_BUFFER_PITCH`: pitch bits 0-10, array pitch bits
11-27). -/
def pack_RB_FLAG_BUFFER_PITCH (pitch array_pitch : Nat) : Nat :=
  (pitch % 2 ^ 11) ||| ((array_pitch % 2 ^ 17) <<< 11)

/-- Modelled from the spec: packing of `A6XX_RB_MRT_BUF_INFO`
(color format bits 0-7, tile mode 8-9, swap 10-11). -/
def pack_RB_MRT_BUF_INFO (color_format color_tile_mode color_swap : Nat) : Nat :=
  (color_format % 256) ||| ((color_tile_mode % 4) <<< 8) ||| ((color_swap % 4) <<< 10)

/-- Modelled from the spec: packing of `A6XX_SP_FS_MRT_REG`
(color format bits 0-7, sint bit 8, uint bit 9). -/
def pack_SP_FS_MRT_REG (color_format : Nat) (color_sint color_uint : Bool) : Nat :=
  (color_format % 256) ||| (if color_sint then 1 <<< 8 else 0) |||
  (if color_uint then 1 <<< 9 else 0)

/-- Modelled from the spec: packing of `A6XX_RB_2D_DST_INFO`
(color format bits 0-7, tile mode 8-9, swap 10-11, flags bit 12, sRGB
bit 13). -/
def pack_RB_2D_DST_INFO (color_format tile_mode color_swap : Nat)
    (flags srgb : Bool) : Nat :=
  (color_format % 256) ||| ((tile_mode % 4) <<< 8) ||| ((color_swap % 4) <<< 10) |||
  (if flags then 1 <<< 12 else 0) ||| (if srgb then 1 <<< 13 else 0)

/-- Modelled from the spec: packing of `A6XX_RB_BLIT_DST_INFO`
(tile mode bits 0-1, flags bit 2, samples 3-4, swap 5-6, color format
bits 7-14). -/
def pack_RB_BLIT_DST_INFO (tile_mode : Nat) (samples : Nat)
    (color_format color_swap : Nat) (flags : Bool) : Nat :=
  (tile_mode % 4) ||| (if flags then 1 <<< 2 else 0) ||| ((samples % 4) <<< 3) |||
  ((color_swap % 4) <<< 5) ||| ((color_format % 256) <<< 7)

/-- `u_minify` — mip-level dimension, clamped to 1 (`tu_minify` is the
same function). -/
def u_minify (v level : Nat) : Nat := max (v >>> level) 1

/-- A view's subresource range (`VkImageSubresourceRange`). -/
structure VkImageSubresourceRange where
  aspectMask : Nat
  baseMipLevel : Nat
  levelCount : Nat
  baseArrayLayer : Nat
  layerCount : Nat
deriving DecidableEq, Repr, Inhabited

/-- `tu_get_levelCount` — resolve the `VK_REMAINING_MIP_LEVELS`
sentinel. -/
def tu_get_levelCount (image : TuImage) (range : VkImageSubresourceRange) : Nat :=
  if range.levelCount = VK_REMAINING then image.level_count - range.baseMipLevel
  else range.levelCount

/-- `tu_get_layerCount` — resolve the `VK_REMAINING_ARRAY_LAYERS`
sentinel. -/
def tu_get_layerCount (image : TuImage) (range : VkImageSubresourceRange) : Nat :=
  if range.layerCount = VK_REMAINING then image.layer_count - range.baseArrayLayer
  else range.layerCount

/-- Modelled from the spec: the layout engine's surface-offset query
(`fdl_surface_offset`) — the slice offset of the mip level plus the
layer's stride multiple. -/
def fdl_surface_offset (l : FdlLayout) (level layer : Nat) : Nat :=
  (l.slices.getD level default).offset + layer * l.layer_size

/-- Modelled from the spec: the BWC-metadata offset query
(`fdl_ubwc_offset`). -/
def fdl_ubwc_offset (l : FdlLayout) (level layer : Nat) : Nat :=
  (l.ubwc_slices.getD level default).offset + layer * l.ubwc_layer_size

/-- Modelled from the spec: the pitch query (`fdl_pitch`). -/
def fdl_pitch (l : FdlLayout) (level : Nat) : Nat :=
  (l.slices.getD level default).pitch

/-- Modelled from the spec: the BWC pitch query (`fdl_ubwc_pitch`). -/
def fdl_ubwc_pitch (l : FdlLayout) (level : Nat) : Nat :=
  (l.ubwc_slices.getD level default).pitch

/-- Modelled from the spec: the per-level layer stride
(`fdl_layer_stride`). -/
def fdl_layer_stride (l : FdlLayout) (_level : Nat) : Nat := l.layer_size

/-- Modelled from the spec: the per-level tile mode (`fdl_tile_mode`);
the tail-mip linearisation is abstracted to the plane's tile mode. -/
def fdl_tile_mode (l : FdlLayout) (_level : Nat) : Nat := l.tile_mode

/-- Modelled from the spec: whether BWC is active at a level
(`fdl_ubwc_enabled`). -/
def fdl_ubwc_enabled (l : FdlLayout) (_level : Nat) : Bool := l.ubwc

/-- Modelled from the spec: the BWC block footprint
(`fdl6_get_ubwc_blockwidth`), 16×4 pixels for the embedded formats. -/
def fdl6_get_ubwc_blockwidth (_l : FdlLayout) : Nat × Nat := (16, 4)

/-- `DIV_ROUND_UP`. -/
def DIV_ROUND_UP (a b : Nat) : Nat := (a + b - 1) / b

/-- `util_logbase2_ceil`. -/
def util_logbase2_ceil (n : Nat) : Nat := if n ≤ 1 then 0 else Nat.log2 (n - 1) + 1

/-- The image-view creation parameters consumed by `tu_image_view_init`
(`VkImageViewCreateInfo`; `ycbcrConversion` models the
`VkSamplerYcbcrConversionInfo` found in the `pNext` chain). -/
structure VkImageViewCreateInfo where
  image : TuImage
  viewType : VkImageViewType
  format : VkFormat
  components : VkComponentMapping
  subresourceRange : VkImageSubresourceRange
  ycbcrConversion : Option TuSamplerYcbcrConversion
deriving DecidableEq, Repr

/-- The image-view object (`struct tu_image_view`).  Fields that
`tu_image_view_init` writes only on some paths are `Option`s; `none`
records that the initialisation path never wrote the field. -/
structure TuImageView where
  image : TuImage
  descriptor : List Nat
  storage_descriptor : Option (List Nat) := none
  SP_PS_2D_SRC_INFO : Option Nat := none
  SP_PS_2D_SRC_SIZE : Option Nat := none
  PITCH : Option Nat := none
  FLAG_BUFFER_PITCH : Option Nat := none
  base_addr : Option Nat := none
  ubwc_addr : Option Nat := none
  layer_size : Option Nat := none
  ubwc_layer_size : Option Nat := none
  extent_width : Option Nat := none
  extent_height : Option Nat := none
  need_y2_align : Option Bool := none
  ubwc_enabled : Option Bool := none
  RB_MRT_BUF_INFO : Option Nat := none
  SP_FS_MRT_REG : Option Nat := none
  RB_2D_DST_INFO : Option Nat := none
  RB_BLIT_DST_INFO : Option Nat := none
  stencil_base_addr : Option Nat := none
  stencil_layer_size : Option Nat := none
  stencil_PITCH : Option Nat := none
deriving DecidableEq, Repr

/-- The plane layout a view resolves through `tu6_plane_index`. -/
def tu_view_plane_layout (ci : VkImageViewCreateInfo) : FdlLayout :=
  ci.image.layout.getD
    (tu6_plane_index ci.image.vk_format ci.subresourceRange.aspectMask) default

/-- The view's primary base address: image address plus the surface
offset of the base mip and base layer. -/
def tu_view_base_addr (ci : VkImageViewCreateInfo) : Nat :=
  ci.image.bo_iova + ci.image.bo_offset +
    fdl_surface_offset (tu_view_plane_layout ci)
      ci.subresourceRange.baseMipLevel ci.subresourceRange.baseArrayLayer

/-- The view's BWC-metadata base address. -/
def tu_view_ubwc_addr (ci : VkImageViewCreateInfo) : Nat :=
  ci.image.bo_iova + ci.image.bo_offset +
    fdl_ubwc_offset (tu_view_plane_layout ci)
      ci.subresourceRange.baseMipLevel ci.subresourceRange.baseArrayLayer

/-- Per-plane base address used by the multi-planar branch: the BWC
metadata address when BWC is on, the surface address otherwise. -/
def tu_view_ycbcr_base_addr (ci : VkImageViewCreateInfo) (ubwc : Bool)
    (i : Nat) : Nat :=
  if ubwc then
    ci.image.bo_iova + ci.image.bo_offset +
      fdl_ubwc_offset (ci.image.layout.getD i default)
        ci.subresourceRange.baseMipLevel ci.subresourceRange.baseArrayLayer
  else
    ci.image.bo_iova + ci.image.bo_offset +
      fdl_surface_offset (ci.image.layout.getD i default)
        ci.subresourceRange.baseMipLevel ci.subresourceRange.baseArrayLayer

/-- The view's storage depth: the minified image depth for 3D views,
the resolved layer count otherwise. -/
def tu_view_storage_depth (ci : VkImageViewCreateInfo) : Nat :=
  if ci.viewType = VkImageViewType.v3d then
    u_minify ci.image.extent.depth ci.subresourceRange.baseMipLevel
  else tu_get_layerCount ci.image ci.subresourceRange

/-- The depth packed into texture descriptor word 5: cube and cube-array
views divide the storage depth by 6. -/
def tu_view_depth (ci : VkImageViewCreateInfo) : Nat :=
  if ci.viewType = VkImageViewType.cube ∨
     ci.viewType = VkImageViewType.cube_array then
    tu_view_storage_depth ci / 6
  else tu_view_storage_depth ci

/-- The effective view format: rewritten to the selected plane's format
when the aspect is not color. -/
def tu_view_format (ci : VkImageViewCreateInfo) : VkFormat :=
  if ci.subresourceRange.aspectMask ≠ VK_IMAGE_ASPECT_COLOR_BIT then
    tu6_plane_format ci.format
      (tu6_plane_index ci.format ci.subresourceRange.aspectMask)
  else ci.format

/-- `tu_image_view_init` — build the descriptor word arrays and the
cached per-view fields for an image view. -/
def tu_image_view_init (ci : VkImageViewCreateInfo) (limited_z24s8 : Bool) :
    TuImageView :=
  let image := ci.image
  let range := ci.subresourceRange
  let aspect_mask := range.aspectMask
  let conversion := ci.ycbcrConversion
  let layout := tu_view_plane_layout ci
  let width := u_minify layout.width0 range.baseMipLevel
  let height := u_minify layout.height0 range.baseMipLevel
  let storage_depth := tu_view_storage_depth ci
  let depth := tu_view_depth ci
  let base_addr := tu_view_base_addr ci
  let ubwc_addr := tu_view_ubwc_addr ci
  let pitch := fdl_pitch layout range.baseMipLevel
  let ubwc_pitch := fdl_ubwc_pitch layout range.baseMipLevel
  let layer_size := fdl_layer_stride layout range.baseMipLevel
  let format := tu_view_format ci
  let fmt0 := tu6_format_texture format layout.tile_mode
  let fmt1 := { fmt0 with tile_mode := fdl_tile_mode layout range.baseMipLevel }
  let ubwc_enabled := fdl_ubwc_enabled layout range.baseMipLevel
  let is_d24s8 := format = VkFormat.D24_UNORM_S8_UINT ∨
                  format = VkFormat.X8_D24_UNORM_PACK32
  let fmt := if is_d24s8 ∧ ubwc_enabled then
               { fmt1 with fmt := FMT6_Z24_UNORM_S8_UINT_AS_R8G8B8A8 }
             else fmt1
  let fmt_tex := fmt.fmt
  let fmt_tex := if is_d24s8 ∧ aspect_mask &&& VK_IMAGE_ASPECT_DEPTH_BIT ≠ 0 then
                   FMT6_Z24_UNORM_S8_UINT
                 else fmt_tex
  let fmt_tex := if is_d24s8 ∧ aspect_mask = VK_IMAGE_ASPECT_STENCIL_BIT then
                   (if limited_z24s8 then FMT6_8_8_8_8_UINT else FMT6_Z24_UINT_S8_UINT)
                 else fmt_tex
  let d0 := u32 (A6XX_TEX_CONST_0_TILE_MODE fmt.tile_mode |||
    (if vk_format_is_srgb format then A6XX_TEX_CONST_0_SRGB else 0) |||
    A6XX_TEX_CONST_0_FMT fmt_tex |||
    A6XX_TEX_CONST_0_SAMPLES (tu_msaa_samples image.samples) |||
    A6XX_TEX_CONST_0_SWAP fmt.swap |||
    tu6_texswiz ci.components conversion format aspect_mask limited_z24s8 |||
    A6XX_TEX_CONST_0_MIPLVLS (tu_get_levelCount image range - 1))
  let d1 := u32 (A6XX_TEX_CONST_1_WIDTH width ||| A6XX_TEX_CONST_1_HEIGHT height)
  let d2 := u32 (A6XX_TEX_CONST_2_PITCHALIGN (layout.pitchalign - 6) |||
    A6XX_TEX_CONST_2_PITCH pitch |||
    A6XX_TEX_CONST_2_TYPE (tu6_tex_type ci.viewType false))
  let d3 := u32 (A6XX_TEX_CONST_3_ARRAY_PITCH layer_size)
  let d4 := u32 base_addr
  let d5 := u32 ((base_addr >>> 32) ||| A6XX_TEX_CONST_5_DEPTH depth)
  if format = VkFormat.G8_B8R8_2PLANE_420_UNORM ∨
     format = VkFormat.G8_B8_R8_3PLANE_420_UNORM then
    -- chroma offset re-uses the MIPLVLS bits
    let d0 :=
      match conversion with
      | some conv =>
        let d0 := if conv.chroma_offset_x = VkChromaLocation.midpoint then
                    d0 ||| A6XX_TEX_CONST_0_CHROMA_MIDPOINT_X else d0
        if conv.chroma_offset_y = VkChromaLocation.midpoint then
          d0 ||| A6XX_TEX_CONST_0_CHROMA_MIDPOINT_Y else d0
      | none => d0
    let d3 := d3 ||| A6XX_TEX_CONST_3_TILE_ALL
    let d3 := if ubwc_enabled then d3 ||| A6XX_TEX_CONST_3_FLAG else d3
    let b0 := tu_view_ycbcr_base_addr ci ubwc_enabled 0
    let b1 := tu_view_ycbcr_base_addr ci ubwc_enabled 1
    let b2 := tu_view_ycbcr_base_addr ci ubwc_enabled 2
    { image := image
      descriptor := [d0, d1, d2, d3, u32 b0, u32 (d5 ||| (b0 >>> 32)),
        u32 (A6XX_TEX_CONST_6_PLANE_PITCH
          (fdl_pitch (image.layout.getD 1 default) range.baseMipLevel)),
        u32 b1, u32 (b1 >>> 32), u32 b2, u32 (b2 >>> 32)] }
  else
    let dflt : FdlSlice := default
    let ubwcW : Nat × Nat × Nat × Nat × Nat :=
      if ubwc_enabled then
        let bw := (fdl6_get_ubwc_blockwidth layout).1
        let bh := (fdl6_get_ubwc_blockwidth layout).2
        (d3 ||| A6XX_TEX_CONST_3_FLAG ||| A6XX_TEX_CONST_3_TILE_ALL,
         u32 ubwc_addr, u32 (ubwc_addr >>> 32),
         u32 (A6XX_TEX_CONST_9_FLAG_BUFFER_ARRAY_PITCH (layout.ubwc_layer_size >>> 2)),
         u32 (A6XX_TEX_CONST_10_FLAG_BUFFER_PITCH ubwc_pitch |||
              A6XX_TEX_CONST_10_FLAG_BUFFER_LOGW (util_logbase2_ceil (DIV_ROUND_UP width bw)) |||
              A6XX_TEX_CONST_10_FLAG_BUFFER_LOGH (util_logbase2_ceil (DIV_ROUND_UP height bh))))
      else (d3, 0, 0, 0, 0)
    let d3u := ubwcW.1
    let d7 := ubwcW.2.1
    let d8 := ubwcW.2.2.1
    let d9 := ubwcW.2.2.2.1
    let d10 := ubwcW.2.2.2.2
    let d3f := if ci.viewType = VkImageViewType.v3d then
                 d3u ||| A6XX_TEX_CONST_3_MIN_LAYERSZ
                   ((layout.slices.getD (image.level_count - 1) dflt).size0)
               else d3u
    -- the C routine returns before the attachment / blit-destination
    -- fields when COLOR is unsupported; each field written after that
    -- early return is therefore guarded by `colorOk` here
    let colorOk : Bool := decide (fmt.supported &&& FMT_COLOR ≠ 0)
    let cfmt0 := tu6_format_color format layout.tile_mode
    let cfmt1 := { cfmt0 with tile_mode := fmt.tile_mode }
    let cfmt := if is_d24s8 ∧ ubwc_enabled then
                  { cfmt1 with fmt := FMT6_Z24_UNORM_S8_UINT_AS_R8G8B8A8 }
                else cfmt1
    let storage :=
      if colorOk && decide (image.usage &&& VK_IMAGE_USAGE_STORAGE_BIT ≠ 0) then
        let s0 := u32 (A6XX_IBO_0_FMT fmt.fmt ||| A6XX_IBO_0_TILE_MODE fmt.tile_mode)
        let s1 := u32 (A6XX_IBO_1_WIDTH width ||| A6XX_IBO_1_HEIGHT height)
        let s2 := u32 (A6XX_IBO_2_PITCH pitch |||
          A6XX_IBO_2_TYPE (tu6_tex_type ci.viewType true))
        let s3 := u32 (A6XX_IBO_3_ARRAY_PITCH layer_size)
        let s4 := u32 base_addr
        let s5 := u32 ((base_addr >>> 32) ||| A6XX_IBO_5_DEPTH storage_depth)
        if ubwc_enabled then
          some [s0, s1, s2, u32 (s3 ||| A6XX_IBO_3_FLAG ||| A6XX_IBO_3_UNK27),
            s4, s5, 0, u32 ubwc_addr, u32 (ubwc_addr >>> 32),
            u32 (A6XX_IBO_9_FLAG_BUFFER_ARRAY_PITCH (layout.ubwc_layer_size >>> 2)),
            u32 (A6XX_IBO_10_FLAG_BUFFER_PITCH ubwc_pitch)]
        else
          some [s0, s1, s2, s3, s4, s5, 0, 0, 0, 0, 0]
      else none
    let stencilOk : Bool :=
      colorOk && decide (image.vk_format = VkFormat.D32_SFLOAT_S8_UINT)
    let slayout := image.layout.getD 1 default
    { image := image
      descriptor := [d0, d1, d2, d3f, d4, d5, 0, d7, d8, d9, d10]
      SP_PS_2D_SRC_INFO := some (pack_SP_PS_2D_SRC_INFO fmt.fmt fmt.tile_mode
        fmt.swap ubwc_enabled (vk_format_is_srgb format)
        (tu_msaa_samples image.samples)
        (image.samples > 1 && !vk_format_is_int format &&
         !vk_format_is_depth_or_stencil format) true true)
      SP_PS_2D_SRC_SIZE := some (pack_SP_PS_2D_SRC_SIZE width height)
      PITCH := some (pack_RB_PITCH pitch)
      FLAG_BUFFER_PITCH := some (pack_RB_FLAG_BUFFER_PITCH ubwc_pitch
        (layout.ubwc_layer_size >>> 2))
      base_addr := some base_addr
      ubwc_addr := some ubwc_addr
      layer_size := some layer_size
      ubwc_layer_size := some layout.ubwc_layer_size
      storage_descriptor := storage
      extent_width := if colorOk then some width else none
      extent_height := if colorOk then some height else none
      need_y2_align := if colorOk then
          some (decide (fmt.tile_mode = TILE6_LINEAR ∧
            range.baseMipLevel ≠ image.level_count - 1))
        else none
      ubwc_enabled := if colorOk then some ubwc_enabled else none
      RB_MRT_BUF_INFO := if colorOk then
          some (pack_RB_MRT_BUF_INFO cfmt.fmt cfmt.tile_mode cfmt.swap)
        else none
      SP_FS_MRT_REG := if colorOk then
          some (pack_SP_FS_MRT_REG cfmt.fmt
            (vk_format_is_sint format) (vk_format_is_uint format))
        else none
      RB_2D_DST_INFO := if colorOk then
          some (pack_RB_2D_DST_INFO cfmt.fmt cfmt.tile_mode
            cfmt.swap ubwc_enabled (vk_format_is_srgb format))
        else none
      RB_BLIT_DST_INFO := if colorOk then
          some (pack_RB_BLIT_DST_INFO cfmt.tile_mode
            (tu_msaa_samples image.samples) cfmt.fmt cfmt.swap ubwc_enabled)
        else none
      stencil_base_addr := if stencilOk then
          some (image.bo_iova + image.bo_offset +
            fdl_surface_offset slayout range.baseMipLevel range.baseArrayLayer)
        else none
      stencil_layer_size := if stencilOk then
          some (fdl_layer_stride slayout range.baseMipLevel)
        else none
      stencil_PITCH := if stencilOk then
          some (pack_RB_PITCH (fdl_pitch slayout range.baseMipLevel))
        else none }

/-- A buffer as the buffer-view builder sees it (`struct tu_buffer`;
`iova` models `tu_buffer_iova(buffer)`). -/
structure TuBuffer where
  size : Nat
  iova : Nat
deriving DecidableEq, Repr, Inhabited

/-- `VkBufferViewCreateInfo`. -/
structure VkBufferViewCreateInfo where
  buffer : TuBuffer
  format : VkFormat
  offset : Nat
  range : Nat
deriving DecidableEq, Repr, Inhabited

/-- The buffer-view object (`struct tu_buffer_view`). -/
structure TuBufferView where
  buffer : TuBuffer
  descriptor : List Nat
deriving DecidableEq, Repr, Inhabited

/-- `MASK(n)` — the low-`n`-bits mask. -/
def MASK (n : Nat) : Nat := (1 <<< n) - 1

/-- `tu_buffer_view_init` — build the texture descriptor of a typed
buffer view.  Note: in the C source the `COND(vk_format_is_srgb(vfmt),
A6XX_TEX_CONST_0_SRGB)` expression stands in a statement of its own —
the assignment to `descriptor[0]` is already terminated by a semicolon
after the swizzle term — so its value is computed and discarded, and no
SRGB bit is or-ed into word 0.  The embedding reproduces that
behaviour. -/
def tu_buffer_view_init (ci : VkBufferViewCreateInfo) : TuBufferView :=
  let buffer := ci.buffer
  let vfmt := ci.format
  let fmt := tu6_format_texture vfmt TILE6_LINEAR
  let range := if ci.range = VK_WHOLE_SIZE then buffer.size - ci.offset
               else ci.range
  let elements := range / vk_format_blocksize vfmt
  let components : VkComponentMapping := { r := .r, g := .g, b := .b, a := .a }
  let iova := buffer.iova + ci.offset
  let d0 := u32 (A6XX_TEX_CONST_0_TILE_MODE TILE6_LINEAR |||
    A6XX_TEX_CONST_0_SWAP fmt.swap |||
    A6XX_TEX_CONST_0_FMT fmt.fmt |||
    A6XX_TEX_CONST_0_MIPLVLS 0 |||
    tu6_texswiz components none vfmt VK_IMAGE_ASPECT_COLOR_BIT false)
  { buffer := buffer
    descriptor := [d0,
      u32 (A6XX_TEX_CONST_1_WIDTH (elements &&& MASK 15) |||
           A6XX_TEX_CONST_1_HEIGHT (elements >>> 15)),
      u32 (A6XX_TEX_CONST_2_UNK4 ||| A6XX_TEX_CONST_2_UNK31),
      0, u32 iova, u32 (iova >>> 32)] }

/-- An observable effect of a destroy entry point: releasing owned
device memory, or freeing the object itself. -/
inductive DestroyAction where
  | freeDeviceMemory (mem : Nat)
  | freeObject
deriving DecidableEq, Repr

/-- `tu_DestroyImage` — `none` models a `VK_NULL_HANDLE` image handle;
the result lists the frees the call performs, in order. -/
def tu_DestroyImage (image : Option TuImage) : List DestroyAction :=
  match image with
  | none => []
  | some img =>
    (if img.owned_memory ≠ 0 then [DestroyAction.freeDeviceMemory img.owned_memory]
     else []) ++ [DestroyAction.freeObject]

/-- `tu_DestroyImageView`. -/
def tu_DestroyImageView (iview : Option TuImageView) : List DestroyAction :=
  match iview with
  | none => []
  | some _ => [DestroyAction.freeObject]

/-- `tu_DestroyBufferView`. -/
def tu_DestroyBufferView (view : Option TuBufferView) : List DestroyAction :=
  match view with
  | none => []
  | some _ => [DestroyAction.freeObject]

/-- Following the spec's words: a "combined depth+stencil format" is a
format carrying both a depth and a stencil component.  Used to compare
the claimed plane-selection rule with `tu6_plane_index`. -/
def isCombinedDepthStencil : VkFormat → Bool
  | .D16_UNORM_S8_UINT => true
  | .D24_UNORM_S8_UINT => true
  | .D32_SFLOAT_S8_UINT => true
  | _ => false

/-- A simple concrete instance of the hardware layout routine, obeying
the spec's contracts (`FdlTotal`, `FdlPlaneZero`, `FdlModeFaithful`,
`FdlUbwcMeta`); used to instantiate the theorems below at concrete
inputs.  It reports every explicit layout infeasible. -/
def fdlModel : FdlRoutine := fun inp =>
  match inp.explicit with
  | some _ => none
  | none => some
    { tile_mode := inp.tile_mode
      ubwc := inp.ubwc
      width0 := inp.width0
      height0 := inp.height0
      depth0 := inp.depth0
      pitchalign := 6
      slices := List.replicate inp.mip_levels { offset := 0, pitch := 256, size0 := 65536 }
      ubwc_slices := List.replicate inp.mip_levels { offset := 0, pitch := 64, size0 := 0 }
      layer_size := 65536
      ubwc_layer_size := if inp.ubwc then 4096 else 0
      size := 65536 * inp.array_layers }

/-- Default device capabilities used for concrete instantiations. -/
def devDefault : TuDeviceCaps := { limited_z24s8 := false, debug_noubwc := false }

/-- A concrete 2-plane YCbCr image creation request. -/
def ciYuv : VkImageCreateInfo :=
  { imageType := .t2d, format := .G8_B8R8_2PLANE_420_UNORM,
    extent := ⟨64, 64, 1⟩, mipLevels := 1, arrayLayers := 1, samples := 1,
    tiling := .optimal, usage := VK_IMAGE_USAGE_SAMPLED_BIT, flags := 0,
    sharingMode := .exclusive, queueFamilyIndices := [], externalMemory := false }

/-- A concrete storage-image creation request. -/
def ciStorage : VkImageCreateInfo :=
  { imageType := .t2d, format := .R8G8B8A8_UNORM,
    extent := ⟨64, 64, 1⟩, mipLevels := 1, arrayLayers := 1, samples := 1,
    tiling := .optimal, usage := VK_IMAGE_USAGE_STORAGE_BIT, flags := 0,
    sharingMode := .exclusive, queueFamilyIndices := [], externalMemory := false }

/-- A concrete sampled-image creation request. -/
def ciSampled : VkImageCreateInfo :=
  { imageType := .t2d, format := .R8G8B8A8_UNORM,
    extent := ⟨64, 64, 1⟩, mipLevels := 1, arrayLayers := 1, samples := 1,
    tiling := .optimal, usage := VK_IMAGE_USAGE_SAMPLED_BIT, flags := 0,
    sharingMode := .exclusive, queueFamilyIndices := [], externalMemory := false }

/-- A creation request with two mip levels, to exercise the explicit
plane-layout dimension rejection. -/
def ciTwoMips : VkImageCreateInfo :=
  { imageType := .t2d, format := .R8G8B8A8_UNORM,
    extent := ⟨64, 64, 1⟩, mipLevels := 2, arrayLayers := 1, samples := 1,
    tiling := .drm_format_modifier, usage := VK_IMAGE_USAGE_SAMPLED_BIT, flags := 0,
    sharingMode := .exclusive, queueFamilyIndices := [], externalMemory := false }

/-- The image `tu_image_create` builds from `ciYuv` with `fdlModel`. -/
def imgYuv : TuImage :=
  (tu_image_create devDefault fdlModel ciYuv DRM_FORMAT_MOD_INVALID none).toOption.getD default

/-- The image `tu_image_create` builds from `ciStorage` with `fdlModel`. -/
def imgStorage : TuImage :=
  (tu_image_create devDefault fdlModel ciStorage DRM_FORMAT_MOD_INVALID none).toOption.getD default

/-- The image `tu_image_create` builds from `ciSampled` with `fdlModel`. -/
def imgSampled : TuImage :=
  (tu_image_create devDefault fdlModel ciSampled DRM_FORMAT_MOD_INVALID none).toOption.getD default

/-- A concrete image backing the view-initialisation witnesses: one
linear plane, 12 array layers. -/
def imgCubeBase : TuImage :=
  { type := .t2d, vk_format := .R8G8B8A8_UNORM, tiling := .optimal,
    usage := VK_IMAGE_USAGE_SAMPLED_BIT, flags := 0, extent := ⟨64, 64, 1⟩,
    level_count := 1, layer_count := 12, samples := 1, exclusive := true,
    queue_family_mask := 0, shareable := false,
    layout := [{ tile_mode := 0, ubwc := false, width0 := 64, height0 := 64,
                 depth0 := 1, pitchalign := 6,
                 slices := [{ offset := 0, pitch := 256, size0 := 16384 }],
                 ubwc_slices := [], layer_size := 16384, ubwc_layer_size := 0,
                 size := 196608 }],
    total_size := 196608 }

/-- A concrete cube view over `imgCubeBase` with 12 layers. -/
def ciCubeView : VkImageViewCreateInfo :=
  { image := imgCubeBase, viewType := .cube, format := .R8G8B8A8_UNORM,
    components := identityComponentMapping,
    subresourceRange :=
      { aspectMask := VK_IMAGE_ASPECT_COLOR_BIT, baseMipLevel := 0,
        levelCount := 1, baseArrayLayer := 0, layerCount := 12 },
    ycbcrConversion := none }

/-- A concrete YCbCr image backing the multi-planar view witness. -/
def imgYuvView : TuImage :=
  { type := .t2d, vk_format := .G8_B8R8_2PLANE_420_UNORM, tiling := .optimal,
    usage := VK_IMAGE_USAGE_SAMPLED_BIT, flags := 0, extent := ⟨64, 64, 1⟩,
    level_count := 1, layer_count := 1, samples := 1, exclusive := true,
    queue_family_mask := 0, shareable := false,
    layout :=
      [{ tile_mode := 0, ubwc := false, width0 := 64, height0 := 64,
         depth0 := 1, pitchalign := 6,
         slices := [{ offset := 0, pitch := 64, size0 := 4096 }],
         ubwc_slices := [], layer_size := 4096, ubwc_layer_size := 0,
         size := 4096 },
       { tile_mode := 0, ubwc := false, width0 := 32, height0 := 32,
         depth0 := 1, pitchalign := 6,
         slices := [{ offset := 4096, pitch := 64, size0 := 2048 }],
         ubwc_slices := [], layer_size := 2048, ubwc_layer_size := 0,
         size := 8192 }],
    total_size := 8192 }

/-- A concrete color-aspect view over the 2-plane YCbCr image. -/
def ciYuvView : VkImageViewCreateInfo :=
  { image := imgYuvView, viewType := .v2d, format := .G8_B8R8_2PLANE_420_UNORM,
    components := identityComponentMapping,
    subresourceRange :=
      { aspectMask := VK_IMAGE_ASPECT_COLOR_BIT, baseMipLevel := 0,
        levelCount := 1, baseArrayLayer := 0, layerCount := 1 },
    ycbcrConversion := none }

/-- The layout-routine arguments `tu_image_create` uses for plane `k`,
with the policy-decided tile mode and BWC flag. -/
def tuCreatePlaneInput (device : TuDeviceCaps) (ci : VkImageCreateInfo)
    (modifier : Nat) (pls : Option (List VkSubresourceLayout)) (k : Nat) :
    FdlInput :=
  planeInput ci (tu_image_tile_policy device ci modifier).1
    (tu_image_tile_policy device ci modifier).2 pls k

/-- The relocation offset `tu_image_create` applies to plane `k` when no
explicit layout was supplied: the accumulated size of the planes before
`k`, rounded up to a 4096-byte boundary. -/
def tuPlaneShiftOffset (device : TuDeviceCaps) (fdl : FdlRoutine)
    (ci : VkImageCreateInfo) (modifier : Nat) (k : Nat) : Nat :=
  ALIGN_POT (tuPlanePrefixTotal fdl ci (tu_image_tile_policy device ci modifier).1
    (tu_image_tile_policy device ci modifier).2 k) 4096

theorem fdlModel_total : FdlTotal fdlModel := by
  intro inp h
  simp [fdlModel, h]

theorem fdlModel_planeZero : FdlPlaneZero fdlModel := by
  intro inp l h hex
  simp only [fdlModel, hex] at h
  cases h
  refine ⟨by simp, by simp, ?_⟩
  cases hm : inp.mip_levels with
  | zero => simp [hm, List.replicate]; rfl
  | succ n => simp [hm, List.replicate]

theorem fdlModel_modeFaithful : FdlModeFaithful fdlModel := by
  intro inp l h
  cases hex : inp.explicit with
  | none => simp only [fdlModel, hex] at h; cases h; exact ⟨rfl, rfl⟩
  | some e => simp [fdlModel, hex] at h

theorem fdlModel_ubwcMeta : FdlUbwcMeta fdlModel := by
  intro inp l h hu
  cases hex : inp.explicit with
  | none => simp only [fdlModel, hex] at h; cases h; simp [hu]
  | some e => simp [fdlModel, hex] at h

theorem shiftSlices_length (off : Nat) :
    ∀ (n : Nat) (ss : List FdlSlice), (shiftSlices off n ss).length = ss.length := by
  intro n ss
  induction ss generalizing n with
  | nil => cases n <;> simp [shiftSlices]
  | cons s tail ih =>
    cases n with
    | zero => simp [shiftSlices]
    | succ m => simp [shiftSlices, ih]

theorem shiftSlices_getD (off : Nat) :
    ∀ (j n : Nat) (ss : List FdlSlice), j < n → j < ss.length →
      (shiftSlices off n ss).getD j default =
        { ss.getD j default with
          offset := (ss.getD j default).offset + off } := by
  intro j
  induction j with
  | zero =>
    intro n ss hn hs
    match n, ss with
    | n + 1, s :: tail => simp [shiftSlices]
  | succ j ih =>
    intro n ss hn hs
    match n, ss with
    | n + 1, s :: tail =>
      simp only [shiftSlices, List.getD_cons_succ]
      exact ih n tail (by omega) (by simpa using hs)

theorem shiftPlane_ubwc (off mips : Nat) (l : FdlLayout) :
    (shiftPlane off mips l).ubwc = l.ubwc := rfl

theorem shiftPlane_tile_mode (off mips : Nat) (l : FdlLayout) :
    (shiftPlane off mips l).tile_mode = l.tile_mode := rfl

theorem shiftPlane_ubwc_layer_size (off mips : Nat) (l : FdlLayout) :
    (shiftPlane off mips l).ubwc_layer_size = l.ubwc_layer_size := rfl

theorem planeUbwc_false (f : VkFormat) (i : Nat) : planeUbwc f false i = false := by
  unfold planeUbwc
  split <;> rfl

theorem tu6_plane_count_pos (f : VkFormat) : 0 < tu6_plane_count f := by
  cases f <;> decide

/-- `policyStep` preserves the invariant "linear comes with BWC off". -/
theorem policyStep_inv (c fl : Bool) (t : Nat × Bool)
    (h : t.1 = TILE6_LINEAR → t.2 = false) :
    (policyStep c fl t).1 = TILE6_LINEAR → (policyStep c fl t).2 = false := by
  unfold policyStep
  split
  · intro _; rfl
  · exact h

/-- `policyStep` never re-enables BWC. -/
theorem policyStep_snd_false (c fl : Bool) (t : Nat × Bool)
    (h : t.2 = false) : (policyStep c fl t).2 = false := by
  unfold policyStep
  split
  · rfl
  · exact h

/-- A taken `policyStep` turns BWC off. -/
theorem policyStep_cond_true (c fl : Bool) (t : Nat × Bool)
    (h : c = true) : (policyStep c fl t).2 = false := by
  unfold policyStep
  rw [h]
  rfl

/-- In the storage policy, a linear decision always comes with BWC
disabled. -/
theorem tile_policy_linear_no_ubwc (device : TuDeviceCaps)
    (ci : VkImageCreateInfo) (modifier : Nat) :
    (tu_image_tile_policy device ci modifier).1 = TILE6_LINEAR →
    (tu_image_tile_policy device ci modifier).2 = false := by
  simp only [tu_image_tile_policy]
  apply policyStep_inv
  apply policyStep_inv
  apply policyStep_inv
  apply policyStep_inv
  apply policyStep_inv
  apply policyStep_inv
  apply policyStep_inv
  apply policyStep_inv
  intro h
  simp [TILE6_3, TILE6_LINEAR] at h

/-- STORAGE usage forces the policy's BWC decision off. -/
theorem tile_policy_storage (device : TuDeviceCaps)
    (ci : VkImageCreateInfo) (modifier : Nat)
    (h : ci.usage &&& VK_IMAGE_USAGE_STORAGE_BIT ≠ 0) :
    (tu_image_tile_policy device ci modifier).2 = false := by
  simp only [tu_image_tile_policy]
  apply policyStep_snd_false
  exact policyStep_cond_true _ _ _ (by simpa using h)

theorem tu_image_planes_length (fdl : FdlRoutine) (ci : VkImageCreateInfo)
    (tm : Nat) (u0 : Bool) (pls : Option (List VkSubresourceLayout)) :
    ∀ (fuel i total : Nat) (ps : List FdlLayout) (t : Nat),
      tu_image_planes fdl ci tm u0 pls i fuel total = .ok (ps, t) →
      ps.length = fuel := by
  intro fuel
  induction fuel with
  | zero =>
    intro i total ps t h
    simp only [tu_image_planes] at h
    cases h
    rfl
  | succ fuel ih =>
    intro i total ps t h
    simp only [tu_image_planes] at h
    split at h
    · cases h
    · split at h
      · cases h
      · split at h
        · next rest t' heq2 =>
          cases h
          simpa using ih _ _ _ _ heq2
        · cases h

/-- Each plane `i + j` of a successful run of the plane loop comes from
a successful layout-routine call, relocated (when no explicit layout was
given and the plane is not the first) by the 4096-aligned accumulated
size of the planes before it. -/
theorem tu_image_planes_spec (fdl : FdlRoutine) (ci : VkImageCreateInfo)
    (tm : Nat) (u0 : Bool) (pls : Option (List VkSubresourceLayout)) :
    ∀ (fuel i total : Nat) (ps : List FdlLayout) (t : Nat),
      tu_image_planes fdl ci tm u0 pls i fuel total = .ok (ps, t) →
      ∀ j, j < fuel →
        ∃ ps1 t1 raw rest,
          tu_image_planes fdl ci tm u0 pls i j total = .ok (ps1, t1) ∧
          fdl (planeInput ci tm u0 pls (i + j)) = some raw ∧
          ps = ps1 ++
            (if pls = none ∧ i + j > 0 then
              shiftPlane (ALIGN_POT t1 4096) ci.mipLevels raw
             else raw) :: rest := by
  intro fuel
  induction fuel with
  | zero => intro i total ps t h j hj; omega
  | succ fuel ih =>
    intro i total ps t h j hj
    simp only [tu_image_planes] at h
    split at h
    · cases h
    · next hcond =>
      split at h
      · cases h
      · next raw0 heq =>
        split at h
        · next rest0 t' heq2 =>
          simp only [Except.ok.injEq, Prod.mk.injEq] at h
          obtain ⟨h1, h2⟩ := h
          subst h1
          subst h2
          cases j with
          | zero =>
            refine ⟨[], total, raw0, rest0, ?_, ?_, ?_⟩
            · simp [tu_image_planes]
            · simpa using heq
            · simp
          | succ j' =>
            obtain ⟨ps1, t1, raw, rest, hpre, hf, hps⟩ :=
              ih (i + 1) _ _ _ heq2 j' (by omega)
            have hidx : i + 1 + j' = i + (j' + 1) := by omega
            rw [hidx] at hf
            refine ⟨(if pls = none ∧ i > 0 then
                shiftPlane (ALIGN_POT total 4096) ci.mipLevels raw0
              else raw0) :: ps1, t1, raw, rest, ?_, hf, ?_⟩
            · simp [tu_image_planes, heq, hpre, hcond]
            · rw [hps, hidx]
              simp
        · cases h

/-- A successful `tu_image_create` comes from a successful plane loop
run, and the image records its planes and accumulated size. -/
theorem tu_image_create_ok (device : TuDeviceCaps) (fdl : FdlRoutine)
    (ci : VkImageCreateInfo) (modifier : Nat)
    (pls : Option (List VkSubresourceLayout)) (img : TuImage)
    (h : tu_image_create device fdl ci modifier pls = .ok img) :
    ∃ ps t,
      tu_image_planes fdl ci (tu_image_tile_policy device ci modifier).1
        (tu_image_tile_policy device ci modifier).2 pls 0
        (tu6_plane_count ci.format) 0 = .ok (ps, t) ∧
      img.layout = ps := by
  simp only [tu_image_create] at h
  split at h
  · cases h
  · next ps t heq =>
    simp only [Except.ok.injEq] at h
    subst h
    exact ⟨ps, t, heq, rfl⟩

/-- When the loop starts with BWC off, every produced plane has BWC
off (the loop never turns it back on). -/
theorem tu_image_planes_ubwc_false (fdl : FdlRoutine) (ci : VkImageCreateInfo)
    (tm : Nat) (pls : Option (List VkSubresourceLayout))
    (hM : FdlModeFaithful fdl) :
    ∀ (fuel i total : Nat) (ps : List FdlLayout) (t : Nat),
      tu_image_planes fdl ci tm false pls i fuel total = .ok (ps, t) →
      ∀ l ∈ ps, l.ubwc = false := by
  intro fuel
  induction fuel with
  | zero =>
    intro i total ps t h l hl
    simp only [tu_image_planes] at h
    cases h
    simp at hl
  | succ fuel ih =>
    intro i total ps t h l hl
    simp only [tu_image_planes] at h
    split at h
    · cases h
    · split at h
      · cases h
      · next raw0 heq =>
        split at h
        · next rest0 t' heq2 =>
          simp only [Except.ok.injEq, Prod.mk.injEq] at h
          obtain ⟨h1, h2⟩ := h
          subst h1
          rcases List.mem_cons.mp hl with rfl | hmem
          · have hraw : raw0.ubwc = false := by
              rw [(hM _ _ heq).2]
              exact planeUbwc_false _ _
            by_cases hcnd : pls = none ∧ i > 0
            · rw [if_pos hcnd, shiftPlane_ubwc]; exact hraw
            · rw [if_neg hcnd]; exact hraw
          · exact ih _ _ _ _ heq2 l hmem
        · cases h

theorem getD_append_cons (ps1 : List FdlLayout) (x : FdlLayout)
    (rest : List FdlLayout) :
    (ps1 ++ x :: rest).getD ps1.length default = x := by
  induction ps1 with
  | nil => rfl
  | cons a l ih => simpa using ih

/-- The plane loop returns the distinguished invalid-layout error
exactly when explicit layouts were supplied and either the image is not
single-mip/single-layer/depth-1 or the layout routine rejects some
plane; without explicit layouts it never errors. -/
theorem tu_image_planes_error_iff (fdl : FdlRoutine) (ci : VkImageCreateInfo)
    (tm : Nat) (u0 : Bool) (pls : Option (List VkSubresourceLayout))
    (hTot : FdlTotal fdl) :
    ∀ (fuel i total : Nat),
      (tu_image_planes fdl ci tm u0 pls i fuel total =
        .error TuError.invalidDrmFormatModifierPlaneLayout) ↔
      (0 < fuel ∧ pls.isSome = true ∧
        ((ci.mipLevels ≠ 1 ∨ ci.arrayLayers ≠ 1 ∨ ci.extent.depth ≠ 1) ∨
          ∃ j, j < fuel ∧ fdl (planeInput ci tm u0 pls (i + j)) = none)) := by
  intro fuel
  induction fuel with
  | zero =>
    intro i total
    simp [tu_image_planes]
  | succ fuel ih =>
    intro i total
    simp only [tu_image_planes]
    by_cases hc : pls.isSome = true ∧
        (ci.mipLevels ≠ 1 ∨ ci.arrayLayers ≠ 1 ∨ ci.extent.depth ≠ 1)
    · rw [if_pos hc]
      constructor
      · intro _
        exact ⟨Nat.succ_pos _, hc.1, Or.inl hc.2⟩
      · intro _
        rfl
    · rw [if_neg hc]
      cases heq : fdl (planeInput ci tm u0 pls i) with
      | none =>
        have hsome : pls.isSome = true := by
          by_contra hn
          have hplsnone : pls = none := by
            cases pls with
            | none => rfl
            | some v => simp at hn
          have hs := hTot (planeInput ci tm u0 pls i)
            (by simp [planeInput, hplsnone])
          rw [heq] at hs
          simp at hs
        simp only [heq]
        constructor
        · intro _
          exact ⟨Nat.succ_pos _, hsome, Or.inr ⟨0, Nat.succ_pos _, by simpa using heq⟩⟩
        · intro _
          trivial
      | some raw0 =>
        simp only [heq]
        cases hrec : tu_image_planes fdl ci tm u0 pls (i + 1) fuel
            (max total (if pls = none ∧ i > 0 then
              shiftPlane (ALIGN_POT total 4096) ci.mipLevels raw0
            else raw0).size) with
        | error e =>
          simp only [hrec]
          have hih := (ih (i + 1)
            (max total (if pls = none ∧ i > 0 then
              shiftPlane (ALIGN_POT total 4096) ci.mipLevels raw0
            else raw0).size))
          rw [hrec] at hih
          constructor
          · intro hLHS
            have he : e = TuError.invalidDrmFormatModifierPlaneLayout := by
              cases hLHS
              rfl
            subst he
            obtain ⟨hf, hsome, hdis⟩ := hih.mp rfl
            refine ⟨Nat.succ_pos _, hsome, ?_⟩
            rcases hdis with hd | ⟨j, hj, hfd⟩
            · exact Or.inl hd
            · exact Or.inr ⟨j + 1, by omega, by
                have : i + 1 + j = i + (j + 1) := by omega
                rw [this] at hfd
                exact hfd⟩
          · intro ⟨_, hsome, hdis⟩
            rcases hdis with hd | ⟨j, hj, hfd⟩
            · exact absurd ⟨hsome, hd⟩ hc
            · cases j with
              | zero =>
                rw [Nat.add_zero] at hfd
                rw [hfd] at heq
                cases heq
              | succ j' =>
                have hrecerr : (Except.error e :
                    Except TuError (List FdlLayout × Nat)) =
                    .error TuError.invalidDrmFormatModifierPlaneLayout :=
                  hih.mpr ⟨by omega, hsome, Or.inr ⟨j', by omega, by
                    have : i + (j' + 1) = i + 1 + j' := by omega
                    rw [this] at hfd
                    exact hfd⟩⟩
                cases hrecerr
                rfl
        | ok pt =>
          obtain ⟨rest0, t'⟩ := pt
          simp only [hrec]
          constructor
          · intro hLHS
            cases hLHS
          · intro ⟨_, hsome, hdis⟩
            rcases hdis with hd | ⟨j, hj, hfd⟩
            · exact absurd ⟨hsome, hd⟩ hc
            · cases j with
              | zero =>
                rw [Nat.add_zero] at hfd
                rw [hfd] at heq
                cases heq
              | succ j' =>
                obtain ⟨ps1, t1, raw, rest, _, hf, _⟩ :=
                  tu_image_planes_spec fdl ci tm u0 pls fuel (i + 1) _ _ _
                    hrec j' (by omega)
                have : i + 1 + j' = i + (j' + 1) := by omega
                rw [this] at hf
                rw [hfd] at hf
                cases hf

/-- C1: at a concrete sRGB buffer view, descriptor word 0 produced by
`tu_buffer_view_init` has the SRGB bit clear — the source's `COND(...)`
expression is a discarded statement, so the bit the claim requires is
never or-ed in. -/
theorem C1_buffer_view_srgb_bit_missing :
    vk_format_is_srgb VkFormat.R8G8B8A8_SRGB = true ∧
    ((tu_buffer_view_init
        { buffer := { size := 4096, iova := 0 },
          format := VkFormat.R8G8B8A8_SRGB, offset := 0,
          range := 1024 }).descriptor.getD 0 0) &&&
      A6XX_TEX_CONST_0_SRGB = 0 := by
  constructor
  · rfl
  · decide

/-- C2 (counterexample): `D24_UNORM_S8_UINT` is a combined
depth+stencil format, yet the plane decomposer resolves its stencil
aspect to plane 0, not 1. -/
theorem C2_stencil_plane_counterexample :
    isCombinedDepthStencil VkFormat.D24_UNORM_S8_UINT = true ∧
    tu6_plane_index VkFormat.D24_UNORM_S8_UINT VK_IMAGE_ASPECT_STENCIL_BIT = 0 := by
  constructor
  · rfl
  · decide

/-- C2 (amended): the stencil aspect resolves plane 1 exactly for the
separately-decomposed `D32_SFLOAT_S8_UINT`, and plane 0 for every other
format; the depth aspect always resolves plane 0. -/
theorem C2_stencil_plane_selection (f : VkFormat) :
    tu6_plane_index f VK_IMAGE_ASPECT_STENCIL_BIT =
      (if f = VkFormat.D32_SFLOAT_S8_UINT then 1 else 0) ∧
    tu6_plane_index f VK_IMAGE_ASPECT_DEPTH_BIT = 0 := by
  cases f <;> exact ⟨by decide, by decide⟩

/-- C8: composing any base swizzle with the identity component mapping
leaves it unchanged. -/
theorem C8_compose_identity (s : Swiz4) :
    compose_swizzle s identityComponentMapping = s := rfl

/-- C9: destroying an image, image view or buffer view through a null
handle performs no free and touches no state. -/
theorem C9_null_destroy_noop :
    tu_DestroyImage none = [] ∧ tu_DestroyImageView none = [] ∧
    tu_DestroyBufferView none = [] :=
  ⟨rfl, rfl, rfl⟩

/-- C4: an image created with the STORAGE usage bit has BWC disabled on
every plane. -/
theorem C4_storage_ubwc_false (device : TuDeviceCaps) (fdl : FdlRoutine)
    (ci : VkImageCreateInfo) (modifier : Nat)
    (pls : Option (List VkSubresourceLayout)) (img : TuImage)
    (hM : FdlModeFaithful fdl)
    (hS : ci.usage &&& VK_IMAGE_USAGE_STORAGE_BIT ≠ 0)
    (h : tu_image_create device fdl ci modifier pls = .ok img) :
    ∀ l ∈ img.layout, l.ubwc = false := by
  obtain ⟨ps, t, hpl, hlay⟩ := tu_image_create_ok _ _ _ _ _ _ h
  have hu : (tu_image_tile_policy device ci modifier).2 = false :=
    tile_policy_storage _ _ _ hS
  rw [hlay]
  rw [hu] at hpl
  exact fun l hl => tu_image_planes_ubwc_false fdl ci _ pls hM _ _ _ _ _ hpl l hl

theorem C4_witness :
    FdlModeFaithful fdlModel ∧
    ciStorage.usage &&& VK_IMAGE_USAGE_STORAGE_BIT ≠ 0 ∧
    tu_image_create devDefault fdlModel ciStorage DRM_FORMAT_MOD_INVALID none =
      .ok imgStorage ∧
    ∀ l ∈ imgStorage.layout, l.ubwc = false :=
  ⟨fdlModel_modeFaithful, by decide, by decide,
    C4_storage_ubwc_false devDefault fdlModel ciStorage DRM_FORMAT_MOD_INVALID
      none imgStorage fdlModel_modeFaithful (by decide) (by decide)⟩

/-- Plane 0 of a successful `tu_image_create` is exactly what the layout
routine returned for plane 0, with the policy's tile mode and BWC flag,
and (when the policy's BWC is off) no BWC metadata region. -/
theorem tu_image_create_plane0 (device : TuDeviceCaps) (fdl : FdlRoutine)
    (ci : VkImageCreateInfo) (modifier : Nat)
    (pls : Option (List VkSubresourceLayout)) (img : TuImage)
    (hM : FdlModeFaithful fdl) (hU : FdlUbwcMeta fdl)
    (h : tu_image_create device fdl ci modifier pls = .ok img) :
    (img.layout.getD 0 default).tile_mode =
      (tu_image_tile_policy device ci modifier).1 ∧
    (img.layout.getD 0 default).ubwc =
      (tu_image_tile_policy device ci modifier).2 ∧
    ((tu_image_tile_policy device ci modifier).2 = false →
      (img.layout.getD 0 default).ubwc_layer_size = 0) := by
  obtain ⟨ps, t, hpl, hlay⟩ := tu_image_create_ok _ _ _ _ _ _ h
  obtain ⟨ps1, t1, raw, rest, hpre, hf, hps⟩ :=
    tu_image_planes_spec _ _ _ _ _ _ _ _ _ _ hpl 0 (tu6_plane_count_pos ci.format)
  simp only [tu_image_planes, Except.ok.injEq, Prod.mk.injEq] at hpre
  obtain ⟨hps1, _⟩ := hpre
  have hl0 : img.layout.getD 0 default = raw := by
    rw [hlay, hps, ← hps1]
    simp
  have hmode := hM _ _ hf
  have hub : raw.ubwc = (tu_image_tile_policy device ci modifier).2 := by
    rw [hmode.2]
    simp [planeInput, planeUbwc]
  refine ⟨?_, ?_, ?_⟩
  · rw [hl0, hmode.1]
    rfl
  · rw [hl0, hub]
  · intro hu0
    rw [hl0]
    refine hU _ _ hf ?_
    show (planeInput ci _ _ pls 0).ubwc = false
    simp [planeInput, planeUbwc]
    exact hu0

/-- C6: for every image `tu_image_create` produces, the modifier query
returns COMPRESSED iff plane 0 has a non-zero BWC metadata region,
LINEAR iff plane 0's tile mode is LINEAR, and INVALID exactly in the
remaining case (tiled without BWC). -/
theorem C6_modifier_query (device : TuDeviceCaps) (fdl : FdlRoutine)
    (ci : VkImageCreateInfo) (modifier : Nat)
    (pls : Option (List VkSubresourceLayout)) (img : TuImage)
    (hM : FdlModeFaithful fdl) (hU : FdlUbwcMeta fdl)
    (h : tu_image_create device fdl ci modifier pls = .ok img) :
    (tu_GetImageDrmFormatModifierProperties img = DRM_FORMAT_MOD_QCOM_COMPRESSED ↔
      (img.layout.getD 0 default).ubwc_layer_size ≠ 0) ∧
    (tu_GetImageDrmFormatModifierProperties img = DRM_FORMAT_MOD_LINEAR ↔
      (img.layout.getD 0 default).tile_mode = TILE6_LINEAR) ∧
    (tu_GetImageDrmFormatModifierProperties img = DRM_FORMAT_MOD_INVALID ↔
      ((img.layout.getD 0 default).tile_mode ≠ TILE6_LINEAR ∧
       (img.layout.getD 0 default).ubwc_layer_size = 0)) := by
  obtain ⟨htm, hub, hmeta⟩ := tu_image_create_plane0 _ _ _ _ _ _ hM hU h
  unfold tu_GetImageDrmFormatModifierProperties
  by_cases hlin : (img.layout.getD 0 default).tile_mode = 0
  · have hpol : (tu_image_tile_policy device ci modifier).1 = TILE6_LINEAR := by
      rw [← htm]
      exact hlin
    have hmz : (img.layout.getD 0 default).ubwc_layer_size = 0 :=
      hmeta (tile_policy_linear_no_ubwc _ _ _ hpol)
    rw [if_pos hlin]
    refine ⟨?_, ?_, ?_⟩
    · simp only [hmz]
      constructor
      · intro he
        exact absurd he (by decide)
      · intro he
        exact absurd rfl he
    · exact iff_of_true rfl hlin
    · constructor
      · intro he
        exact absurd he (by decide)
      · intro ⟨ht, _⟩
        exact absurd hlin (by simpa [TILE6_LINEAR] using ht)
  · rw [if_neg hlin]
    by_cases hmz : (img.layout.getD 0 default).ubwc_layer_size ≠ 0
    · rw [if_pos hmz]
      refine ⟨?_, ?_, ?_⟩
      · exact iff_of_true rfl hmz
      · constructor
        · intro he
          exact absurd he (by decide)
        · intro ht
          exact absurd ht (by simpa [TILE6_LINEAR] using hlin)
      · constructor
        · intro he
          exact absurd he (by decide)
        · intro ⟨_, hz⟩
          exact absurd hz hmz
    · rw [if_neg hmz]
      push_neg at hmz
      refine ⟨?_, ?_, ?_⟩
      · constructor
        · intro he
          exact absurd he (by decide)
        · intro hz
          exact absurd hmz hz
      · constructor
        · intro he
          exact absurd he (by decide)
        · intro ht
          exact absurd ht (by simpa [TILE6_LINEAR] using hlin)
      · exact iff_of_true rfl ⟨hlin, hmz⟩

theorem C6_witness :
    FdlModeFaithful fdlModel ∧ FdlUbwcMeta fdlModel ∧
    tu_image_create devDefault fdlModel ciSampled DRM_FORMAT_MOD_INVALID none =
      .ok imgSampled ∧
    ((tu_GetImageDrmFormatModifierProperties imgSampled =
        DRM_FORMAT_MOD_QCOM_COMPRESSED ↔
      (imgSampled.layout.getD 0 default).ubwc_layer_size ≠ 0) ∧
    (tu_GetImageDrmFormatModifierProperties imgSampled = DRM_FORMAT_MOD_LINEAR ↔
      (imgSampled.layout.getD 0 default).tile_mode = TILE6_LINEAR) ∧
    (tu_GetImageDrmFormatModifierProperties imgSampled = DRM_FORMAT_MOD_INVALID ↔
      ((imgSampled.layout.getD 0 default).tile_mode ≠ TILE6_LINEAR ∧
       (imgSampled.layout.getD 0 default).ubwc_layer_size = 0))) :=
  ⟨fdlModel_modeFaithful, fdlModel_ubwcMeta, by decide,
    C6_modifier_query devDefault fdlModel ciSampled DRM_FORMAT_MOD_INVALID none
      imgSampled fdlModel_modeFaithful fdlModel_ubwcMeta (by decide)⟩

/-- C3: in an image created without explicit plane layouts, plane 0's
first slice sits at offset 0, and every later plane `k` is exactly the
layout routine's result relocated by `align_up` of the accumulated size
of the planes before `k` to 4096 — every slice offset and BWC-slice
offset shifted by that amount and the plane's size grown by it. -/
theorem C3_plane_placement (device : TuDeviceCaps) (fdl : FdlRoutine)
    (ci : VkImageCreateInfo) (modifier : Nat) (img : TuImage)
    (hPZ : FdlPlaneZero fdl) (hmips : 0 < ci.mipLevels)
    (h : tu_image_create device fdl ci modifier none = .ok img) :
    (((img.layout.getD 0 default).slices.getD 0 default).offset = 0) ∧
    (∀ k, 0 < k → k < tu6_plane_count ci.format →
      ∃ raw,
        fdl (tuCreatePlaneInput device ci modifier none k) = some raw ∧
        img.layout.getD k default =
          shiftPlane (tuPlaneShiftOffset device fdl ci modifier k)
            ci.mipLevels raw ∧
        ((img.layout.getD k default).slices.getD 0 default).offset =
          tuPlaneShiftOffset device fdl ci modifier k ∧
        (∀ j, j < ci.mipLevels →
          ((img.layout.getD k default).slices.getD j default).offset =
            (raw.slices.getD j default).offset +
              tuPlaneShiftOffset device fdl ci modifier k ∧
          ((img.layout.getD k default).ubwc_slices.getD j default).offset =
            (raw.ubwc_slices.getD j default).offset +
              tuPlaneShiftOffset device fdl ci modifier k) ∧
        (img.layout.getD k default).size =
          raw.size + tuPlaneShiftOffset device fdl ci modifier k) := by
  obtain ⟨ps, t, hpl, hlay⟩ := tu_image_create_ok _ _ _ _ _ _ h
  constructor
  · obtain ⟨ps1, t1, raw, rest, hpre, hf, hps⟩ :=
      tu_image_planes_spec _ _ _ _ _ _ _ _ _ _ hpl 0 (tu6_plane_count_pos ci.format)
    simp only [tu_image_planes, Except.ok.injEq, Prod.mk.injEq] at hpre
    obtain ⟨hps1, _⟩ := hpre
    have hl0 : img.layout.getD 0 default = raw := by
      rw [hlay, hps, ← hps1]
      simp
    rw [hl0]
    exact (hPZ _ _ hf rfl).2.2
  · intro k hk0 hkc
    obtain ⟨ps1, t1, raw, rest, hpre, hf, hps⟩ :=
      tu_image_planes_spec _ _ _ _ _ _ _ _ _ _ hpl k hkc
    rw [Nat.zero_add] at hf
    have ht1 : tuPlanePrefixTotal fdl ci (tu_image_tile_policy device ci modifier).1
        (tu_image_tile_policy device ci modifier).2 k = t1 := by
      unfold tuPlanePrefixTotal
      rw [hpre]
    have hoff : tuPlaneShiftOffset device fdl ci modifier k = ALIGN_POT t1 4096 := by
      unfold tuPlaneShiftOffset
      rw [ht1]
    have hlen : ps1.length = k := tu_image_planes_length _ _ _ _ _ _ _ _ _ _ hpre
    have hgk : img.layout.getD k default =
        shiftPlane (ALIGN_POT t1 4096) ci.mipLevels raw := by
      rw [hlay, hps, if_pos ⟨rfl, by omega⟩, ← hlen]
      exact getD_append_cons _ _ _
    obtain ⟨hslen, hulen, hoff0⟩ := hPZ _ _ hf rfl
    refine ⟨raw, hf, ?_, ?_, ?_, ?_⟩
    · rw [hgk, hoff]
    · rw [hgk, hoff]
      show ((shiftSlices (ALIGN_POT t1 4096) ci.mipLevels raw.slices).getD 0 default).offset = _
      rw [shiftSlices_getD _ 0 _ _ hmips (by rw [hslen]; exact hmips)]
      rw [hoff0]
      simp
    · intro j hj
      rw [hgk, hoff]
      constructor
      · show ((shiftSlices (ALIGN_POT t1 4096) ci.mipLevels raw.slices).getD j default).offset = _
        rw [shiftSlices_getD _ j _ _ hj (by rw [hslen]; exact hj)]
      · show ((shiftSlices (ALIGN_POT t1 4096) ci.mipLevels raw.ubwc_slices).getD j default).offset = _
        rw [shiftSlices_getD _ j _ _ hj (by rw [hulen]; exact hj)]
    · rw [hgk, hoff]
      rfl

theorem C3_witness :
    FdlPlaneZero fdlModel ∧ 0 < ciYuv.mipLevels ∧
    tu_image_create devDefault fdlModel ciYuv DRM_FORMAT_MOD_INVALID none =
      .ok imgYuv ∧
    ((((imgYuv.layout.getD 0 default).slices.getD 0 default).offset = 0) ∧
     (∀ k, 0 < k → k < tu6_plane_count ciYuv.format →
        ∃ raw,
          fdlModel (tuCreatePlaneInput devDefault ciYuv DRM_FORMAT_MOD_INVALID
            none k) = some raw ∧
          imgYuv.layout.getD k default =
            shiftPlane (tuPlaneShiftOffset devDefault fdlModel ciYuv
              DRM_FORMAT_MOD_INVALID k) ciYuv.mipLevels raw ∧
          ((imgYuv.layout.getD k default).slices.getD 0 default).offset =
            tuPlaneShiftOffset devDefault fdlModel ciYuv DRM_FORMAT_MOD_INVALID k ∧
          (∀ j, j < ciYuv.mipLevels →
            ((imgYuv.layout.getD k default).slices.getD j default).offset =
              (raw.slices.getD j default).offset +
                tuPlaneShiftOffset devDefault fdlModel ciYuv DRM_FORMAT_MOD_INVALID k ∧
            ((imgYuv.layout.getD k default).ubwc_slices.getD j default).offset =
              (raw.ubwc_slices.getD j default).offset +
                tuPlaneShiftOffset devDefault fdlModel ciYuv DRM_FORMAT_MOD_INVALID k) ∧
          (imgYuv.layout.getD k default).size =
            raw.size + tuPlaneShiftOffset devDefault fdlModel ciYuv
              DRM_FORMAT_MOD_INVALID k)) :=
  ⟨fdlModel_planeZero, by decide, by decide,
    C3_plane_placement devDefault fdlModel ciYuv DRM_FORMAT_MOD_INVALID imgYuv
      fdlModel_planeZero (by decide) (by decide)⟩

/-- C5: `tu_image_create` returns the invalid-external-layout error
exactly when explicit plane layouts were supplied and either the image
is not single-mip/single-layer/depth-1 or the layout routine reports
some plane's explicit layout infeasible; without explicit layouts this
error never occurs. -/
theorem C5_invalid_layout_iff (device : TuDeviceCaps) (fdl : FdlRoutine)
    (ci : VkImageCreateInfo) (modifier : Nat)
    (pls : Option (List VkSubresourceLayout))
    (hTot : FdlTotal fdl) :
    (tu_image_create device fdl ci modifier pls =
      .error TuError.invalidDrmFormatModifierPlaneLayout) ↔
    (pls.isSome = true ∧
      ((ci.mipLevels ≠ 1 ∨ ci.arrayLayers ≠ 1 ∨ ci.extent.depth ≠ 1) ∨
        ∃ k, k < tu6_plane_count ci.format ∧
          fdl (tuCreatePlaneInput device ci modifier pls k) = none)) := by
  have hcr : (tu_image_create device fdl ci modifier pls =
      .error TuError.invalidDrmFormatModifierPlaneLayout) ↔
      (tu_image_planes fdl ci (tu_image_tile_policy device ci modifier).1
        (tu_image_tile_policy device ci modifier).2 pls 0
        (tu6_plane_count ci.format) 0 =
        .error TuError.invalidDrmFormatModifierPlaneLayout) := by
    simp only [tu_image_create]
    cases hm : tu_image_planes fdl ci (tu_image_tile_policy device ci modifier).1
        (tu_image_tile_policy device ci modifier).2 pls 0
        (tu6_plane_count ci.format) 0 with
    | error e => simp
    | ok pt =>
      obtain ⟨a, b⟩ := pt
      simp
  rw [hcr, tu_image_planes_error_iff fdl ci _ _ pls hTot]
  simp only [tuCreatePlaneInput, Nat.zero_add, tu6_plane_count_pos ci.format,
    true_and]

theorem C5_witness :
    FdlTotal fdlModel ∧
    ((tu_image_create devDefault fdlModel ciTwoMips DRM_FORMAT_MOD_LINEAR
        (some [VkSubresourceLayout.mk 0 256]) =
      .error TuError.invalidDrmFormatModifierPlaneLayout) ↔
    ((some [VkSubresourceLayout.mk 0 256]).isSome = true ∧
      ((ciTwoMips.mipLevels ≠ 1 ∨ ciTwoMips.arrayLayers ≠ 1 ∨
        ciTwoMips.extent.depth ≠ 1) ∨
        ∃ k, k < tu6_plane_count ciTwoMips.format ∧
          fdlModel (tuCreatePlaneInput devDefault ciTwoMips
            DRM_FORMAT_MOD_LINEAR (some [VkSubresourceLayout.mk 0 256]) k) =
            none))) :=
  ⟨fdlModel_total,
    C5_invalid_layout_iff devDefault fdlModel ciTwoMips DRM_FORMAT_MOD_LINEAR
      (some [VkSubresourceLayout.mk 0 256]) fdlModel_total⟩

/-- Extracting bits 17-29 of word 5 recovers the depth argument when the
address high bits stay below bit 17. -/
theorem depth_field_extract_plain (a d : Nat) (ha : a < 2 ^ 17)
    (hd : d < 2 ^ 13) :
    ((u32 (a ||| A6XX_TEX_CONST_5_DEPTH d)) >>> 17) % 2 ^ 13 = d := by
  have hdm : d % 2 ^ 13 = d := Nat.mod_eq_of_lt hd
  apply Nat.eq_of_testBit_eq
  intro i
  simp only [u32, A6XX_TEX_CONST_5_DEPTH, hdm, Nat.testBit_mod_two_pow,
    Nat.testBit_shiftRight, Nat.testBit_or, Nat.testBit_shiftLeft]
  by_cases hi : i < 13
  · have h1 : 17 + i < 32 := by omega
    have h2 : 17 ≤ 17 + i := by omega
    have h3 : 17 + i - 17 = i := by omega
    have h4 : a.testBit (17 + i) = false :=
      Nat.testBit_lt_two_pow
        (lt_of_lt_of_le ha (Nat.pow_le_pow_right (by norm_num) (by omega)))
    simp [hi, h1, h2, h3, h4]
  · have h5 : d.testBit i = false :=
      Nat.testBit_lt_two_pow
        (lt_of_lt_of_le hd (Nat.pow_le_pow_right (by norm_num) (by omega)))
    simp [hi, h5]

/-- The multi-planar variant: word 5 additionally ors in the plane-0
address high bits. -/
theorem depth_field_extract_mp (a b d : Nat) (ha : a < 2 ^ 17)
    (hb : b < 2 ^ 17) (hd : d < 2 ^ 13) :
    ((u32 (u32 (a ||| A6XX_TEX_CONST_5_DEPTH d) ||| b)) >>> 17) % 2 ^ 13 = d := by
  have hdm : d % 2 ^ 13 = d := Nat.mod_eq_of_lt hd
  apply Nat.eq_of_testBit_eq
  intro i
  simp only [u32, A6XX_TEX_CONST_5_DEPTH, hdm, Nat.testBit_mod_two_pow,
    Nat.testBit_shiftRight, Nat.testBit_or, Nat.testBit_shiftLeft]
  by_cases hi : i < 13
  · have h1 : 17 + i < 32 := by omega
    have h2 : 17 ≤ 17 + i := by omega
    have h3 : 17 + i - 17 = i := by omega
    have h4 : a.testBit (17 + i) = false :=
      Nat.testBit_lt_two_pow
        (lt_of_lt_of_le ha (Nat.pow_le_pow_right (by norm_num) (by omega)))
    have h6 : b.testBit (17 + i) = false :=
      Nat.testBit_lt_two_pow
        (lt_of_lt_of_le hb (Nat.pow_le_pow_right (by norm_num) (by omega)))
    simp [hi, h1, h2, h3, h4, h6]
  · have h5 : d.testBit i = false :=
      Nat.testBit_lt_two_pow
        (lt_of_lt_of_le hd (Nat.pow_le_pow_right (by norm_num) (by omega)))
    simp [hi, h5]

/-- C7: the depth field packed into texture descriptor word 5 equals the
view's layer count divided by 6 for CUBE / CUBE_ARRAY views and the
storage depth for every other view type (hypotheses: the 48-bit GPU
addresses leave the field's bits free, and the depth fits its field). -/
theorem C7_cube_depth_field (ci : VkImageViewCreateInfo) (limited : Bool)
    (hbase : tu_view_base_addr ci >>> 32 < 2 ^ 17)
    (hyc : tu_view_ycbcr_base_addr ci
      (fdl_ubwc_enabled (tu_view_plane_layout ci)
        ci.subresourceRange.baseMipLevel) 0 >>> 32 < 2 ^ 17)
    (hd : tu_view_depth ci < 2 ^ 13) :
    (((tu_image_view_init ci limited).descriptor.getD 5 0) >>> 17) % 2 ^ 13 =
    (if ci.viewType = VkImageViewType.cube ∨
        ci.viewType = VkImageViewType.cube_array then
      tu_get_layerCount ci.image ci.subresourceRange / 6
     else tu_view_storage_depth ci) := by
  have hrhs : (if ci.viewType = VkImageViewType.cube ∨
      ci.viewType = VkImageViewType.cube_array then
        tu_get_layerCount ci.image ci.subresourceRange / 6
      else tu_view_storage_depth ci) = tu_view_depth ci := by
    unfold tu_view_depth
    by_cases hc : ci.viewType = VkImageViewType.cube ∨
        ci.viewType = VkImageViewType.cube_array
    · rw [if_pos hc, if_pos hc]
      have hnv3 : ¬ci.viewType = VkImageViewType.v3d := by
        rcases hc with h | h <;> simp [h]
      unfold tu_view_storage_depth
      rw [if_neg hnv3]
    · rw [if_neg hc, if_neg hc]
  rw [hrhs]
  simp only [tu_image_view_init]
  split
  · exact depth_field_extract_mp _ _ _ hbase hyc hd
  · split
    · exact depth_field_extract_plain _ _ hbase hd
    · split
      · exact depth_field_extract_plain _ _ hbase hd
      · exact depth_field_extract_plain _ _ hbase hd

theorem C7_witness :
    tu_view_base_addr ciCubeView >>> 32 < 2 ^ 17 ∧
    tu_view_ycbcr_base_addr ciCubeView
      (fdl_ubwc_enabled (tu_view_plane_layout ciCubeView)
        ciCubeView.subresourceRange.baseMipLevel) 0 >>> 32 < 2 ^ 17 ∧
    tu_view_depth ciCubeView < 2 ^ 13 ∧
    (((tu_image_view_init ciCubeView false).descriptor.getD 5 0) >>> 17) % 2 ^ 13 =
    (if ciCubeView.viewType = VkImageViewType.cube ∨
        ciCubeView.viewType = VkImageViewType.cube_array then
      tu_get_layerCount ciCubeView.image ciCubeView.subresourceRange / 6
     else tu_view_storage_depth ciCubeView) :=
  ⟨by decide, by decide, by decide,
    C7_cube_depth_field ciCubeView false (by decide) (by decide) (by decide)⟩

/-- C10: a view whose (color-aspect) format is a 2-plane or 3-plane
YCbCr 4:2:0 format takes the multi-planar early return: the storage
descriptor, 2D/render-target/blit fields, cached per-view fields and the
stencil side-band are never written. -/
theorem C10_multiplanar_early_return (ci : VkImageViewCreateInfo)
    (limited : Bool)
    (ha : ci.subresourceRange.aspectMask = VK_IMAGE_ASPECT_COLOR_BIT)
    (hf : ci.format = VkFormat.G8_B8R8_2PLANE_420_UNORM ∨
          ci.format = VkFormat.G8_B8_R8_3PLANE_420_UNORM) :
    (tu_image_view_init ci limited).storage_descriptor = none ∧
    (tu_image_view_init ci limited).SP_PS_2D_SRC_INFO = none ∧
    (tu_image_view_init ci limited).SP_PS_2D_SRC_SIZE = none ∧
    (tu_image_view_init ci limited).PITCH = none ∧
    (tu_image_view_init ci limited).FLAG_BUFFER_PITCH = none ∧
    (tu_image_view_init ci limited).base_addr = none ∧
    (tu_image_view_init ci limited).ubwc_addr = none ∧
    (tu_image_view_init ci limited).layer_size = none ∧
    (tu_image_view_init ci limited).ubwc_layer_size = none ∧
    (tu_image_view_init ci limited).extent_width = none ∧
    (tu_image_view_init ci limited).extent_height = none ∧
    (tu_image_view_init ci limited).need_y2_align = none ∧
    (tu_image_view_init ci limited).ubwc_enabled = none ∧
    (tu_image_view_init ci limited).RB_MRT_BUF_INFO = none ∧
    (tu_image_view_init ci limited).SP_FS_MRT_REG = none ∧
    (tu_image_view_init ci limited).RB_2D_DST_INFO = none ∧
    (tu_image_view_init ci limited).RB_BLIT_DST_INFO = none ∧
    (tu_image_view_init ci limited).stencil_base_addr = none ∧
    (tu_image_view_init ci limited).stencil_layer_size = none ∧
    (tu_image_view_init ci limited).stencil_PITCH = none := by
  have hvf : tu_view_format ci = ci.format := by
    unfold tu_view_format
    rw [ha]
    simp
  have hcond : tu_view_format ci = VkFormat.G8_B8R8_2PLANE_420_UNORM ∨
      tu_view_format ci = VkFormat.G8_B8_R8_3PLANE_420_UNORM := by
    rw [hvf]
    exact hf
  simp only [tu_image_view_init]
  rw [if_pos hcond]
  exact ⟨rfl, rfl, rfl, rfl, rfl, rfl, rfl, rfl, rfl, rfl, rfl, rfl, rfl, rfl,
    rfl, rfl, rfl, rfl, rfl, rfl⟩

theorem C10_witness :
    ciYuvView.subresourceRange.aspectMask = VK_IMAGE_ASPECT_COLOR_BIT ∧
    (ciYuvView.format = VkFormat.G8_B8R8_2PLANE_420_UNORM ∨
     ciYuvView.format = VkFormat.G8_B8_R8_3PLANE_420_UNORM) ∧
    (tu_image_view_init ciYuvView false).storage_descriptor = none ∧
    (tu_image_view_init ciYuvView false).SP_PS_2D_SRC_INFO = none ∧
    (tu_image_view_init ciYuvView false).SP_PS_2D_SRC_SIZE = none ∧
    (tu_image_view_init ciYuvView false).PITCH = none ∧
    (tu_image_view_init ciYuvView false).FLAG_BUFFER_PITCH = none ∧
    (tu_image_view_init ciYuvView false).base_addr = none ∧
    (tu_image_view_init ciYuvView false).ubwc_addr = none ∧
    (tu_image_view_init ciYuvView false).layer_size = none ∧
    (tu_image_view_init ciYuvView false).ubwc_layer_size = none ∧
    (tu_image_view_init ciYuvView false).extent_width = none ∧
    (tu_image_view_init ciYuvView false).extent_height = none ∧
    (tu_image_view_init ciYuvView false).need_y2_align = none ∧
    (tu_image_view_init ciYuvView false).ubwc_enabled = none ∧
    (tu_image_view_init ciYuvView false).RB_MRT_BUF_INFO = none ∧
    (tu_image_view_init ciYuvView false).SP_FS_MRT_REG = none ∧
    (tu_image_view_init ciYuvView false).RB_2D_DST_INFO = none ∧
    (tu_image_view_init ciYuvView false).RB_BLIT_DST_INFO = none ∧
    (tu_image_view_init ciYuvView false).stencil_base_addr = none ∧
    (tu_image_view_init ciYuvView false).stencil_layer_size = none ∧
    (tu_image_view_init ciYuvView false).stencil_PITCH = none := by
  refine ⟨rfl, Or.inl rfl, ?_⟩
  have h := C10_multiplanar_early_return ciYuvView false rfl (Or.inl rfl)
  exact h
